import Mathlib

/-!
# gnuplot_i: a shallow embedding of `gnuplot_i.c` / `gnuplot_i.h`

Conventions of the embedding.

* A C `double` is carried as its 64-bit pattern (`CDouble`); the `%g` conversion of libc is
  a field of `Platform`, as are `P_tmpdir` and the result of `mkstemp`.  The environment
  variables, `access`, `popen` and `pclose` are fields of `Host`.
* A C string is a `String`, one `Char` for each `char`; a pointer that may be `NULL` is an
  `Option`.  An array argument is the list of the elements that can be read through the
  pointer (the extent of the object it points into); reading past it, or through `NULL`, is
  undefined behaviour.
* `int` values are mathematical integers (`Int`); no counter in this program gets near
  `INT_MAX`.  The fixed-size character buffers (`cmd`, `name`, `local_cmd`) are taken to be
  large enough for what is printed into them; the one bounded copy in the code, `strncpy`
  into `term`, is modelled with its bound.
* `FAIL_IF (EXP, MSG)` prints `ERROR: MSG` and calls `exit (EXIT_FAILURE)`: an operation
  ends with status `exit e`, where `e` identifies the message.
* What lives outside the session structure (the bytes written to the pipe, the temporary
  files, the calls of `remove`, the warnings on `stderr`) is recorded in `Env`.
-/

namespace Gnuplot

/-! ## Constants of `gnuplot_i.h` and `gnuplot_i.c` -/

/-- Maximum number of simultaneous temporary files (`gnuplot_i.h`). -/
def GP_MAX_TMP_FILES : Int := 64

/-- The template handed to `mkstemp`: `"%s/gnuplot-i-XXXXXX"` printed with `P_tmpdir`. -/
def GNUPLOT_TEMPFILE (tmpdir : String) : String := tmpdir ++ "/gnuplot-i-XXXXXX"

/-- Size of a data pointer in bytes (`sizeof(y)` for `double *y`), LP64. -/
def sizeof_ptr : Nat := 8

/-- Size of a `double` in bytes (`sizeof(y[0])`). -/
def sizeof_double : Nat := 8

/-! ## Data model -/

/-- A C `double`, identified with its bit pattern: two doubles are the same bytes exactly
when the patterns agree. -/
structure CDouble where
  bits : Nat
deriving DecidableEq, Repr

/-- The session handle `gnuplot_ctrl` of `gnuplot_i.h`. -/
structure gnuplot_ctrl where
  gnucmd : Nat
  nplots : Int
  pstyle : String
  term : String
  to_delete : List String
  ntmp : Int
deriving DecidableEq, Repr

/-- The point structure `gnuplot_point` of `gnuplot_i.h`. -/
structure gnuplot_point where
  x : CDouble
  y : CDouble
  z : CDouble
deriving DecidableEq, Repr

/-- What the C library and the host supply: the `%g` conversion, the temporary directory
`P_tmpdir`, and the outcome of `mkstemp` on a template (`none` for `-1`, otherwise the name
of the file it created). -/
structure Platform where
  g : CDouble → String
  P_tmpdir : String
  mkstemp : String → Option String

/-- The messages of the `FAIL_IF` calls, by the error kind they stand for. -/
inductive GpError where
  | InvalidArgument
  | InvalidSession
  | SessionHeld
  | TooManyTempFiles
  | TempFileError
  | InvalidDimensions
  | ShutdownError
  | ExecutableNotFound
  | SpawnError
deriving DecidableEq, Repr

/-- How an operation ends: it returns, it leaves through `exit (EXIT_FAILURE)` in a
`FAIL_IF`, or its behaviour is undefined from some point on. -/
inductive Status where
  | done
  | exit (e : GpError)
  | undefined
deriving DecidableEq, Repr

/-- The world outside the handle: every string written to the pipe with `fputs` (in order),
the temporary files created with the chunks written to each, the arguments of the calls
of `remove` (in order), and what was printed on `stderr`. -/
structure Env where
  pipe : List String
  files : List (String × List String)
  removed : List String
  stderr : List String
deriving DecidableEq, Repr

/-- The result of running an operation: its status, the handle (or `NULL`) and the outside
world at the point where it ended (for `undefined`: on entry to the statement whose behaviour
is undefined). -/
structure Outcome where
  status : Status
  handle : Option gnuplot_ctrl
  env : Env
deriving DecidableEq, Repr

/-! ## printf-style formatting -/

/-- An argument of a variadic formatting call. -/
inductive Arg where
  | str (s : String)
  | int (i : Int)
  | dbl (d : CDouble)

/-- The `%d` conversion. -/
def fmt_d (i : Int) : String := toString i

/-- One conversion specification `%k`: the characters it prints and the arguments left.
`%%` prints a percent sign and takes no argument; `%s`, `%d`, `%g` take the next argument,
which must have the matching type.  A conversion without its argument, and any other
character after `%`, is undefined behaviour: `none`. -/
def conversion (g : CDouble → String) (k : Char) (args : List Arg) :
    Option (List Char × List Arg) :=
  if k = '%' then some (['%'], args)
  else if k = 's' then
    match args with
    | Arg.str s :: args => some (s.data, args)
    | _ => none
  else if k = 'd' then
    match args with
    | Arg.int i :: args => some ((fmt_d i).data, args)
    | _ => none
  else if k = 'g' then
    match args with
    | Arg.dbl d :: args => some ((g d).data, args)
    | _ => none
  else none

/-- The output of a printf-style call on the characters of a format: ordinary characters
are copied, `%` starts a conversion specification. -/
def vformat (g : CDouble → String) : List Char → List Arg → Option (List Char)
  | [], _ => some []
  | [c], _ => if c = '%' then none else some [c]
  | c :: k :: rest, args =>
    if c = '%' then
      match conversion g k args with
      | none => none
      | some (out, args) => (vformat g rest args).map (fun r => out ++ r)
    else (vformat g (k :: rest) args).map (fun r => c :: r)

/-- The call `vsprintf (local_cmd, cmd, ap)`. -/
def vsprintf (g : CDouble → String) (cmd : String) (ap : List Arg) : Option String :=
  (vformat g cmd.data ap).map String.mk

/-! ## Operations -/

/-- The function `gnuplot_cmd`: format `cmd` with its arguments, append a newline, write the
result to the pipe and flush.  The handle is dereferenced without a check. -/
def gnuplot_cmd (p : Platform) (handle : Option gnuplot_ctrl) (env : Env)
    (cmd : String) (ap : List Arg) : Outcome :=
  match handle with
  | none => ⟨Status.undefined, handle, env⟩
  | some _ =>
    match vsprintf p.g cmd ap with
    | none => ⟨Status.undefined, handle, env⟩
    | some local_cmd =>
      ⟨Status.done, handle, { env with pipe := env.pipe ++ [local_cmd ++ "\n"] }⟩

/-- The function `gnuplot_i_error`: the three `FAIL_IF` checks, in order; `none` when the
function returns. -/
def gnuplot_i_error (handle : Option gnuplot_ctrl) : Option GpError :=
  match handle with
  | none => some GpError.InvalidSession
  | some h =>
    if h.nplots > 0 then some GpError.SessionHeld
    else if h.ntmp = GP_MAX_TMP_FILES - 1 then some GpError.TooManyTempFiles
    else none

/-- Sequencing of two statements: the second runs when the first returned. -/
def Outcome.andThen (r : Outcome) (k : Option gnuplot_ctrl → Env → Outcome) : Outcome :=
  match r.status with
  | Status.done => k r.handle r.env
  | _ => r

/-- The array read `a[k]`: `none` when `a` is `NULL` or `k` is outside the object. -/
def read (a : Option (List CDouble)) (k : Int) : Option CDouble :=
  match a with
  | none => none
  | some l => if k < 0 then none else l.get? k.toNat

/-- The slot read `handle->to_delete[i]`, inside the `GP_MAX_TMP_FILES` slots only. -/
def slot (h : gnuplot_ctrl) (i : Int) : Option String :=
  if 0 ≤ i ∧ i < GP_MAX_TMP_FILES then h.to_delete.get? i.toNat else none

/-- The statements `strcpy (handle->to_delete[handle->ntmp], name); handle->ntmp++;`:
`none` when `ntmp` is not the index of one of the `GP_MAX_TMP_FILES` slots. -/
def store_name (h : gnuplot_ctrl) (name : String) : Option gnuplot_ctrl :=
  if 0 ≤ h.ntmp ∧ h.ntmp < GP_MAX_TMP_FILES ∧ h.ntmp.toNat < h.to_delete.length then
    some { h with to_delete := h.to_delete.set h.ntmp.toNat name, ntmp := h.ntmp + 1 }
  else none

/-- The expression `(title) ? title : "No title"`. -/
def title_or_default (title : Option String) : String :=
  match title with
  | some t => t
  | none => "No title"

/-- The expression `(handle->nplots > 0) ? "replot" : "plot"`. -/
def plot_verb (h : gnuplot_ctrl) : String :=
  if h.nplots > 0 then "replot" else "plot"

/-- A loop `for (int i = i0; i < i0 + k; i++)` whose body writes chunks to the temporary
file: the chunks written, in order, or `none` when some iteration is undefined. -/
def write_loop (body : Int → Option (List String)) : Nat → Int → Option (List String)
  | 0, _ => some []
  | k + 1, i =>
    match body i with
    | none => none
    | some r => (write_loop body k (i + 1)).map (fun rs => r ++ rs)

/-- The loop `for (int i = 0; i < n; i++)` over a body that writes to the temporary file. -/
def for_rows (n : Int) (body : Int → Option (List String)) : Option (List String) :=
  write_loop body n.toNat 0

/-- The test `memcmp (a, b, len) == 0` on arrays of doubles, for a length that is a whole
number of doubles: both ranges of `len` bytes must lie inside their objects, and the result
says whether they hold the same bytes. -/
def memcmp_eq (a b : List CDouble) (len : Nat) : Option Bool :=
  if len / sizeof_double ≤ a.length ∧ len / sizeof_double ≤ b.length then
    some (decide (a.take (len / sizeof_double) = b.take (len / sizeof_double)))
  else none

/-- The function `gnuplot_resetplot`: call `remove` on the slots `0 .. ntmp-1`, then set
both counters to zero. -/
def gnuplot_resetplot (handle : Option gnuplot_ctrl) (env : Env) : Outcome :=
  match handle with
  | none => ⟨Status.undefined, handle, env⟩
  | some h =>
    match (if h.ntmp ≠ 0 then
        for_rows h.ntmp (fun i => (slot h i).map (fun name => [name]))
      else some []) with
    | none => ⟨Status.undefined, handle, env⟩
    | some names =>
      ⟨Status.done, some { h with ntmp := 0, nplots := 0 },
        { env with removed := env.removed ++ names }⟩

/-- The body of the data loop of `gnuplot_plot_coordinates`:
`(y == NULL || memcmp (y, y+1, (sizeof(y)-1)*sizeof(y[0])) == 0)` selects the one-column
row `"%g\n"` of `x[i]`, otherwise the row is `"%g %g\n"` of `x[i]`, `y[i]`. -/
def coordinates_row (p : Platform) (x y : Option (List CDouble)) (i : Int) :
    Option (List String) :=
  match y with
  | none => (read x i).map (fun xi => [p.g xi ++ "\n"])
  | some ys =>
    match memcmp_eq ys ys.tail ((sizeof_ptr - 1) * sizeof_double) with
    | none => none
    | some true => (read x i).map (fun xi => [p.g xi ++ "\n"])
    | some false =>
      match read x i, read y i with
      | some xi, some yi => some [p.g xi ++ " " ++ p.g yi ++ "\n"]
      | _, _ => none

/-- The function `gnuplot_plot_coordinates`. -/
def gnuplot_plot_coordinates (p : Platform) (handle : Option gnuplot_ctrl) (env : Env)
    (x y : Option (List CDouble)) (n : Int) (title : Option String) : Outcome :=
  if x = none ∨ n < 1 then ⟨Status.exit GpError.InvalidArgument, handle, env⟩ else
  match gnuplot_i_error handle with
  | some e => ⟨Status.exit e, handle, env⟩
  | none =>
  match handle with
  | none => ⟨Status.undefined, handle, env⟩
  | some h =>
    match p.mkstemp (GNUPLOT_TEMPFILE p.P_tmpdir) with
    | none => ⟨Status.exit GpError.TempFileError, handle, env⟩
    | some name =>
      let env1 : Env := { env with files := env.files ++ [(name, [])] }
      match store_name h name with
      | none => ⟨Status.undefined, handle, env1⟩
      | some h1 =>
        match for_rows n (coordinates_row p x y) with
        | none => ⟨Status.undefined, some h1, env1⟩
        | some rows =>
          let env2 : Env := { env with files := env.files ++ [(name, rows)] }
          let cmd := plot_verb h1 ++ " \"" ++ name ++ "\" title \""
            ++ title_or_default title ++ "\" with " ++ h1.pstyle
          (gnuplot_cmd p (some h1) env2 cmd []).andThen fun _ env3 =>
            ⟨Status.done, some { h1 with nplots := h1.nplots + 1 }, env3⟩

/-- The function `gnuplot_splot`: the argument check names `x`, `y` and `n` only. -/
def gnuplot_splot (p : Platform) (handle : Option gnuplot_ctrl) (env : Env)
    (x y z : Option (List CDouble)) (n : Int) (title : Option String) : Outcome :=
  if x = none ∨ y = none ∨ n < 1 then ⟨Status.exit GpError.InvalidArgument, handle, env⟩ else
  match gnuplot_i_error handle with
  | some e => ⟨Status.exit e, handle, env⟩
  | none =>
  match handle with
  | none => ⟨Status.undefined, handle, env⟩
  | some h =>
    match p.mkstemp (GNUPLOT_TEMPFILE p.P_tmpdir) with
    | none => ⟨Status.exit GpError.TempFileError, handle, env⟩
    | some name =>
      let env1 : Env := { env with files := env.files ++ [(name, [])] }
      match store_name h name with
      | none => ⟨Status.undefined, handle, env1⟩
      | some h1 =>
        match for_rows n (fun i =>
            match read x i, read y i, read z i with
            | some xi, some yi, some zi =>
              some [p.g xi ++ " " ++ p.g yi ++ " " ++ p.g zi ++ "\n"]
            | _, _, _ => none) with
        | none => ⟨Status.undefined, some h1, env1⟩
        | some rows =>
          let env2 : Env := { env with files := env.files ++ [(name, rows)] }
          let cmd := "splot \"" ++ name ++ "\" title \""
            ++ title_or_default title ++ "\" with " ++ h1.pstyle
          (gnuplot_cmd p (some h1) env2 cmd []).andThen fun _ env3 =>
            ⟨Status.done, some { h1 with nplots := h1.nplots + 1 }, env3⟩

/-- The function `gnuplot_splot_grid`: for each `i`, the rows `"%d %d %g\n"` of `i`, `j`,
`points[i * cols + j]` for each `j`, then the chunk `"\n"`. -/
def gnuplot_splot_grid (p : Platform) (handle : Option gnuplot_ctrl) (env : Env)
    (points : Option (List CDouble)) (rows cols : Int) (title : Option String) : Outcome :=
  if points = none ∨ rows < 1 ∨ cols < 1 then
    ⟨Status.exit GpError.InvalidArgument, handle, env⟩ else
  match gnuplot_i_error handle with
  | some e => ⟨Status.exit e, handle, env⟩
  | none =>
  match handle with
  | none => ⟨Status.undefined, handle, env⟩
  | some h =>
    match p.mkstemp (GNUPLOT_TEMPFILE p.P_tmpdir) with
    | none => ⟨Status.exit GpError.TempFileError, handle, env⟩
    | some name =>
      let env1 : Env := { env with files := env.files ++ [(name, [])] }
      match store_name h name with
      | none => ⟨Status.undefined, handle, env1⟩
      | some h1 =>
        match for_rows rows (fun i =>
            (for_rows cols (fun j =>
              (read points (i * cols + j)).map (fun v =>
                [fmt_d i ++ " " ++ fmt_d j ++ " " ++ p.g v ++ "\n"]))).map
              (fun group => group ++ ["\n"])) with
        | none => ⟨Status.undefined, some h1, env1⟩
        | some data =>
          let env2 : Env := { env with files := env.files ++ [(name, data)] }
          let cmd := "splot \"" ++ name ++ "\" title \""
            ++ title_or_default title ++ "\" with " ++ h1.pstyle
          (gnuplot_cmd p (some h1) env2 cmd []).andThen fun _ env3 =>
            ⟨Status.done, some { h1 with nplots := h1.nplots + 1 }, env3⟩

/-- The function `gnuplot_contour_plot`: the argument check names `x`, `y`, `nx`, `ny`; the
data loop reads the three arrays at index `nx * i + j`; four fixed commands precede the
`splot` command. -/
def gnuplot_contour_plot (p : Platform) (handle : Option gnuplot_ctrl) (env : Env)
    (x y z : Option (List CDouble)) (nx ny : Int) (title : Option String) : Outcome :=
  if x = none ∨ y = none ∨ nx < 1 ∨ ny < 1 then
    ⟨Status.exit GpError.InvalidArgument, handle, env⟩ else
  match gnuplot_i_error handle with
  | some e => ⟨Status.exit e, handle, env⟩
  | none =>
  match handle with
  | none => ⟨Status.undefined, handle, env⟩
  | some h =>
    match p.mkstemp (GNUPLOT_TEMPFILE p.P_tmpdir) with
    | none => ⟨Status.exit GpError.TempFileError, handle, env⟩
    | some name =>
      let env1 : Env := { env with files := env.files ++ [(name, [])] }
      match store_name h name with
      | none => ⟨Status.undefined, handle, env1⟩
      | some h1 =>
        match for_rows nx (fun i =>
            (for_rows ny (fun j =>
              match read x (nx * i + j), read y (nx * i + j), read z (nx * i + j) with
              | some xv, some yv, some zv =>
                some [p.g xv ++ " " ++ p.g yv ++ " " ++ p.g zv ++ "\n"]
              | _, _, _ => none)).map
              (fun group => group ++ ["\n"])) with
        | none => ⟨Status.undefined, some h1, env1⟩
        | some data =>
          let env2 : Env := { env with files := env.files ++ [(name, data)] }
          let cmd := "splot \"" ++ name ++ "\" title \""
            ++ title_or_default title ++ "\" with " ++ h1.pstyle
          (gnuplot_cmd p (some h1) env2 "unset surface" []).andThen fun _ e =>
          (gnuplot_cmd p (some h1) e "set contour base" []).andThen fun _ e =>
          (gnuplot_cmd p (some h1) e "set view map" []).andThen fun _ e =>
          (gnuplot_cmd p (some h1) e "set view 0,0" []).andThen fun _ e =>
          (gnuplot_cmd p (some h1) e cmd []).andThen fun _ env3 =>
            ⟨Status.done, some { h1 with nplots := h1.nplots + 1 }, env3⟩

/-- The callback type `void (*getPoint)(void *, gnuplot_point *, int, int)`: from the
object and the point structure as they are before the call, the index and the count, to the
object and the point structure as the call leaves them. -/
abbrev GetPoint (Obj : Type) := Obj → gnuplot_point → Int → Int → Obj × gnuplot_point

/-- The data loop of the callback operations, `for (int i = i0; i < i0 + k; i++)`: call
`getPoint (obj, &point, i, n)`, then write the row that `row` prints from `point`.  The
result is the rows written and the object after the last call. -/
def callback_loop {Obj : Type} (getPoint : GetPoint Obj) (row : gnuplot_point → String)
    (n : Int) : Nat → Int → Obj → gnuplot_point → List String × Obj
  | 0, _, obj, _ => ([], obj)
  | k + 1, i, obj, point =>
    let r := getPoint obj point i n
    let rest := callback_loop getPoint row n k (i + 1) r.1 r.2
    (row r.2 :: rest.1, rest.2)

/-- The function `gnuplot_splot_obj`; `point0` is the content of the local `point` before
the first call of the callback.  The object after the last call is returned with the
outcome. -/
def gnuplot_splot_obj {Obj : Type} (p : Platform) (handle : Option gnuplot_ctrl) (env : Env)
    (obj : Obj) (getPoint : Option (GetPoint Obj)) (n : Int) (title : Option String)
    (point0 : gnuplot_point) : Outcome × Obj :=
  match getPoint with
  | none => (⟨Status.exit GpError.InvalidArgument, handle, env⟩, obj)
  | some getPoint =>
  if n < 1 then (⟨Status.exit GpError.InvalidArgument, handle, env⟩, obj) else
  match gnuplot_i_error handle with
  | some e => (⟨Status.exit e, handle, env⟩, obj)
  | none =>
  match handle with
  | none => (⟨Status.undefined, handle, env⟩, obj)
  | some h =>
    match p.mkstemp (GNUPLOT_TEMPFILE p.P_tmpdir) with
    | none => (⟨Status.exit GpError.TempFileError, handle, env⟩, obj)
    | some name =>
      let env1 : Env := { env with files := env.files ++ [(name, [])] }
      match store_name h name with
      | none => (⟨Status.undefined, handle, env1⟩, obj)
      | some h1 =>
        let r := callback_loop getPoint
          (fun pt => p.g pt.x ++ " " ++ p.g pt.y ++ " " ++ p.g pt.z ++ "\n") n n.toNat 0 obj point0
        let env2 : Env := { env with files := env.files ++ [(name, r.1)] }
        let cmd := "splot \"" ++ name ++ "\" title \""
          ++ title_or_default title ++ "\" with " ++ h1.pstyle
        ((gnuplot_cmd p (some h1) env2 cmd []).andThen fun _ env3 =>
          ⟨Status.done, some { h1 with nplots := h1.nplots + 1 }, env3⟩, r.2)

/-- The function `gnuplot_plot_obj_xy`; `point0` is the content of the local `point`
before the first call of the callback. -/
def gnuplot_plot_obj_xy {Obj : Type} (p : Platform) (handle : Option gnuplot_ctrl) (env : Env)
    (obj : Obj) (getPoint : Option (GetPoint Obj)) (n : Int) (title : Option String)
    (point0 : gnuplot_point) : Outcome × Obj :=
  match getPoint with
  | none => (⟨Status.exit GpError.InvalidArgument, handle, env⟩, obj)
  | some getPoint =>
  if n < 1 then (⟨Status.exit GpError.InvalidArgument, handle, env⟩, obj) else
  match gnuplot_i_error handle with
  | some e => (⟨Status.exit e, handle, env⟩, obj)
  | none =>
  match handle with
  | none => (⟨Status.undefined, handle, env⟩, obj)
  | some h =>
    match p.mkstemp (GNUPLOT_TEMPFILE p.P_tmpdir) with
    | none => (⟨Status.exit GpError.TempFileError, handle, env⟩, obj)
    | some name =>
      let env1 : Env := { env with files := env.files ++ [(name, [])] }
      match store_name h name with
      | none => (⟨Status.undefined, handle, env1⟩, obj)
      | some h1 =>
        let r := callback_loop getPoint
          (fun pt => p.g pt.x ++ " " ++ p.g pt.y ++ "\n") n n.toNat 0 obj point0
        let env2 : Env := { env with files := env.files ++ [(name, r.1)] }
        let cmd := plot_verb h1 ++ " \"" ++ name ++ "\" title \""
          ++ title_or_default title ++ "\" with " ++ h1.pstyle
        ((gnuplot_cmd p (some h1) env2 cmd []).andThen fun _ env3 =>
          ⟨Status.done, some { h1 with nplots := h1.nplots + 1 }, env3⟩, r.2)

/-- The function `gnuplot_plot_equation`: no check of the handle, no temporary file. -/
def gnuplot_plot_equation (p : Platform) (handle : Option gnuplot_ctrl) (env : Env)
    (equation : String) (title : Option String) : Outcome :=
  match handle with
  | none => ⟨Status.undefined, handle, env⟩
  | some h =>
    let cmd := plot_verb h ++ " " ++ equation ++ " title \""
      ++ title_or_default title ++ "\" with " ++ h.pstyle
    (gnuplot_cmd p handle env cmd []).andThen fun _ env1 =>
      ⟨Status.done, some { h with nplots := h.nplots + 1 }, env1⟩

/-- The function `gnuplot_setstyle`: a name that differs from each of the ten names tested
gets the warning on `stderr` and the style `points`; any other name is copied. -/
def gnuplot_setstyle (handle : Option gnuplot_ctrl) (env : Env) (plot_style : String) :
    Outcome :=
  match handle with
  | none => ⟨Status.undefined, handle, env⟩
  | some h =>
    if plot_style ≠ "lines" ∧ plot_style ≠ "points" ∧ plot_style ≠ "linespoints"
        ∧ plot_style ≠ "impulses" ∧ plot_style ≠ "dots" ∧ plot_style ≠ "steps"
        ∧ plot_style ≠ "filledcurves" ∧ plot_style ≠ "errorbars" ∧ plot_style ≠ "boxes"
        ∧ plot_style ≠ "boxerrorbars" then
      ⟨Status.done, some { h with pstyle := "points" },
        { env with stderr := env.stderr ++
            ["Warning: unknown requested plot style: using default 'points'\n"] }⟩
    else ⟨Status.done, some { h with pstyle := plot_style }, env⟩

/-- The statements `strncpy (handle->term, terminal, 32); handle->term[31] = 0;`: the first
31 characters of the name, the whole name when it is shorter. -/
def copy_term (terminal : String) : String := String.mk (terminal.data.take 31)

/-- The function `gnuplot_setterm`: the name is copied first, then the sizes are checked,
then the command is printed and sent. -/
def gnuplot_setterm (p : Platform) (handle : Option gnuplot_ctrl) (env : Env)
    (terminal : String) (width height : Int) : Outcome :=
  match handle with
  | none => ⟨Status.undefined, handle, env⟩
  | some h =>
    let h1 : gnuplot_ctrl := { h with term := copy_term terminal }
    if width < 0 ∨ height < 0 then ⟨Status.exit GpError.InvalidDimensions, some h1, env⟩
    else
      gnuplot_cmd p (some h1) env
        ("set terminal " ++ h1.term ++ " size " ++ fmt_d width ++ "," ++ fmt_d height) []

/-- The function `gnuplot_set_axislabel`. -/
def gnuplot_set_axislabel (p : Platform) (handle : Option gnuplot_ctrl) (env : Env)
    (axis label : String) : Outcome :=
  gnuplot_cmd p handle env ("set " ++ axis ++ "label \"" ++ label ++ "\"") []

/-- The function `gnuplot_hardcopy`: four calls of `gnuplot_cmd`; the file name and the
terminal name are passed as arguments of `%s`. -/
def gnuplot_hardcopy (p : Platform) (handle : Option gnuplot_ctrl) (env : Env)
    (filename : String) (color : Option String) : Outcome :=
  (match color with
    | none => gnuplot_cmd p handle env "set terminal postscript" []
    | some _ => gnuplot_cmd p handle env "set terminal postscript enhanced color" []).andThen
  fun _ e =>
  (gnuplot_cmd p handle e "set output \"%s\"" [Arg.str filename]).andThen fun _ e =>
  (gnuplot_cmd p handle e "replot" []).andThen fun _ e =>
  match handle with
  | none => ⟨Status.undefined, handle, e⟩
  | some h => gnuplot_cmd p handle e "set terminal %s" [Arg.str h.term]

/-- What the host supplies to `gnuplot_init`, `gnuplot_close` and
`gnuplot_get_program_path`: the values of `getenv` for `DISPLAY` and `PATH`, whether
`access (path, X_OK)` is 0, the stream `popen` returns (`none` for `NULL`), the value
`pclose` returns, and the content `malloc` leaves in the 64 slots. -/
structure Host where
  DISPLAY : Option String
  PATH : Option String
  access : String → Bool
  popen : String → Option Nat
  pclose : Nat → Int
  slots : Nat → String

/-- The name of the program, `GNUPLOT_EXEC` outside Windows. -/
def GNUPLOT_EXEC : String := "gnuplot"

/-- What `gnuplot_get_program_path` does: it returns a pointer (`none` for `NULL`), or
leaves through a `FAIL_IF`. -/
inductive PathResult where
  | returned (buf : Option String)
  | exit (e : GpError)
deriving DecidableEq, Repr

/-- The pieces of `PATH` the loop of `gnuplot_get_program_path` visits, in order.  The loop
starts a piece at `i` while `path[i]` is not the end, scans to the next `:` or to the end,
and steps over that `:`.  The second argument is the piece being scanned (`none` at the top
of the loop). -/
def path_scan : List Char → Option (List Char) → List (List Char)
  | [], none => []
  | [], some cur => [cur]
  | c :: rest, none => if c = ':' then [] :: path_scan rest none else path_scan rest (some [c])
  | c :: rest, some cur =>
    if c = ':' then cur :: path_scan rest none else path_scan rest (some (cur ++ [c]))

/-- The content of `buf` for one piece of `PATH`: the piece (`.` when it is empty), a `/`,
the program name. -/
def candidate (piece : List Char) (pname : String) : List Char :=
  (if piece = [] then ['.'] else piece) ++ ['/'] ++ pname.data

/-- The final loop of `gnuplot_get_program_path`: characters are dropped from the end of
`buf` down to the last `/`, which is dropped too. -/
def strip_name (buf : List Char) : List Char :=
  ((buf.reverse.dropWhile (fun c => c ≠ '/')).drop 1).reverse

/-- The function `gnuplot_get_program_path`.  Both `FAIL_IF` calls (`PATH` not set, command
not found) stand for the executable not being found. -/
def gnuplot_get_program_path (host : Host) (pname : String) : PathResult :=
  if host.access ("./" ++ pname) then PathResult.returned (some ".")
  else
    match host.PATH with
    | none => PathResult.exit GpError.ExecutableNotFound
    | some path =>
      match (path_scan path.data none).find?
          (fun piece => host.access (String.mk (candidate piece pname))) with
      | none => PathResult.exit GpError.ExecutableNotFound
      | some piece => PathResult.returned (some (String.mk (strip_name (candidate piece pname))))

/-- The function `gnuplot_init`, as compiled on Linux (neither `_WIN32` nor `__APPLE__`):
the checks of `DISPLAY` and of the program path, the allocation, `nplots = 0`, the style
`points`, `ntmp = 0`, `popen`, the terminal `wxt` of 900 by 400. -/
def gnuplot_init (p : Platform) (host : Host) (env : Env) : Outcome :=
  if host.DISPLAY = none then ⟨Status.exit GpError.ExecutableNotFound, none, env⟩ else
  match gnuplot_get_program_path host "gnuplot" with
  | PathResult.exit e => ⟨Status.exit e, none, env⟩
  | PathResult.returned none => ⟨Status.exit GpError.ExecutableNotFound, none, env⟩
  | PathResult.returned (some _) =>
  match gnuplot_get_program_path host GNUPLOT_EXEC with
  | PathResult.exit e => ⟨Status.exit e, none, env⟩
  | PathResult.returned none => ⟨Status.exit GpError.ExecutableNotFound, none, env⟩
  | PathResult.returned (some _) =>
    let h0 : gnuplot_ctrl := ⟨0, 0, "", "", (List.range 64).map host.slots, 0⟩
    (gnuplot_setstyle (some { h0 with nplots := 0 }) env "points").andThen fun hd env1 =>
    match hd with
    | none => ⟨Status.undefined, none, env1⟩
    | some h1 =>
      match host.popen GNUPLOT_EXEC with
      | none => ⟨Status.exit GpError.SpawnError, none, env1⟩
      | some stream =>
        gnuplot_setterm p (some { h1 with ntmp := 0, gnucmd := stream }) env1 "wxt" 900 400

/-- The function `gnuplot_close`: `pclose` first, with its `FAIL_IF`; then `remove` on the
slots `0 .. ntmp-1`; then the handle is freed. -/
def gnuplot_close (host : Host) (handle : Option gnuplot_ctrl) (env : Env) : Outcome :=
  match handle with
  | none => ⟨Status.undefined, handle, env⟩
  | some h =>
    if host.pclose h.gnucmd = -1 then ⟨Status.exit GpError.ShutdownError, handle, env⟩
    else
      match (if h.ntmp ≠ 0 then
          for_rows h.ntmp (fun i => (slot h i).map (fun name => [name]))
        else some []) with
      | none => ⟨Status.undefined, handle, env⟩
      | some names => ⟨Status.done, none, { env with removed := env.removed ++ names }⟩

/-! ## Shapes of the data and sample values -/

/-- The rows of the one-column shape: `"%g\n"` of `x[i]` for `i = 0 .. n-1`. -/
def one_column (p : Platform) (xs : List CDouble) (n : Int) : List String :=
  (List.range n.toNat).map (fun i => p.g (xs.getD i ⟨0⟩) ++ "\n")

/-- The rows of the two-column shape: `"%g %g\n"` of `x[i]`, `y[i]` for `i = 0 .. n-1`. -/
def two_columns (p : Platform) (xs ys : List CDouble) (n : Int) : List String :=
  (List.range n.toNat).map (fun i => p.g (xs.getD i ⟨0⟩) ++ " " ++ p.g (ys.getD i ⟨0⟩) ++ "\n")

/-- The data `gnuplot_splot_grid` is to write for a matrix of `rows` by `cols` values: for
each `i` the rows `"%d %d %g\n"` of `i`, `j`, `points[i * cols + j]`, then the chunk `"\n"`. -/
def grid_data (p : Platform) (pts : List CDouble) (rows cols : Int) : List String :=
  (List.range rows.toNat).flatMap (fun (i : Nat) =>
    (List.range cols.toNat).map (fun (j : Nat) =>
      fmt_d (i : Int) ++ " " ++ fmt_d (j : Int) ++ " "
        ++ p.g (pts.getD (i * cols.toNat + j) ⟨0⟩) ++ "\n")
    ++ ["\n"])

/-- A callback used to evaluate examples: it counts its calls in the object and sets `x` to
the index and `y` to its square, leaving `z` as it was. -/
def sample_callback : GetPoint Nat :=
  fun calls pt i _ => (calls + 1, { pt with x := ⟨i.toNat⟩, y := ⟨i.toNat * i.toNat⟩ })

/-- A stand-in for the `%g` conversion, used to evaluate examples only: it prints the bit
pattern in decimal.  With it comes `/tmp` for `P_tmpdir` and a `mkstemp` that succeeds. -/
def sample_platform : Platform :=
  ⟨fun d => toString d.bits, "/tmp", fun _ => some "/tmp/gnuplot-i-a1b2c3"⟩

/-- A session as `gnuplot_init` leaves it on Linux: no plot, no temporary file, style
`points`, terminal `wxt`; the 64 slots, which `malloc` leaves indeterminate, are taken
empty. -/
def fresh_session : gnuplot_ctrl :=
  ⟨0, 0, "points", "wxt", List.replicate 64 "", 0⟩

/-- The outside world before anything was written, created, removed or printed. -/
def empty_env : Env := ⟨[], [], [], []⟩

/-- The doubles with the given bit patterns. -/
def doubles (l : List Nat) : List CDouble := l.map CDouble.mk

/-! ## Style names, callback records, reachable states -/

/-- The ten names `gnuplot_setstyle` compares the requested style with. -/
def recognised_styles : List String :=
  ["lines", "points", "linespoints", "impulses", "dots", "steps", "filledcurves",
   "errorbars", "boxes", "boxerrorbars"]

/-- A host used to evaluate examples: a display, three directories in `PATH`, the two
executable files `/usr/bin/gnuplot` and `/bin/ls`, a `popen` and a `pclose` that succeed,
empty slots. -/
def sample_host : Host :=
  ⟨some ":0", some "/usr/local/bin:/usr/bin:/bin",
    fun s => decide (s = "/usr/bin/gnuplot" ∨ s = "/bin/ls"), fun _ => some 0, fun _ => 0,
    fun _ => ""⟩

/-- The object and the local `point` after the first `k` calls of the callback, when call
number `j` (from 0) is `getPoint (obj, &point, j, n)` on what call `j - 1` left. -/
def callback_states {Obj : Type} (getPoint : GetPoint Obj) (n : Int) (obj : Obj)
    (point0 : gnuplot_point) : Nat → Obj × gnuplot_point
  | 0 => (obj, point0)
  | k + 1 =>
    getPoint (callback_states getPoint n obj point0 k).1
      (callback_states getPoint n obj point0 k).2 (k : Int) n

/-- The callback `getPoint` with a record: the object carries the list of the pairs (index,
count) of the calls made so far, in order; object and point are handled as by `getPoint`. -/
def logged {Obj : Type} (getPoint : GetPoint Obj) : GetPoint (Obj × List (Int × Int)) :=
  fun o pt i n => (((getPoint o.1 pt i n).1, o.2 ++ [(i, n)]), (getPoint o.1 pt i n).2)

/-- One successful plot through a temporary file, from `(h, env)` to `(h1, env1)`: the
session checks passed, a file `name` was created and its name stored in slot `ntmp`, the
tracked count and the active-plot counter went up by one, nothing was removed. -/
def PlotStep (h : gnuplot_ctrl) (env : Env) (h1 : gnuplot_ctrl) (env1 : Env) : Prop :=
  ∃ (name : String) (rows : List String) (hs : gnuplot_ctrl),
    gnuplot_i_error (some h) = none ∧ store_name h name = some hs
    ∧ h1 = { hs with nplots := hs.nplots + 1 }
    ∧ env1.files = env.files ++ [(name, rows)] ∧ env1.removed = env.removed

/-- The states of a session and of its outside world that are reached from `gnuplot_init`
(run on the empty outside world) through public operations that return: `gnuplot_setstyle`,
`gnuplot_setterm`, `gnuplot_set_axislabel`, `gnuplot_resetplot`, the six plot operations
through a temporary file, `gnuplot_plot_equation`, `gnuplot_hardcopy`. -/
inductive Reachable : gnuplot_ctrl → Env → Prop where
  | init (p : Platform) (host : Host) (h : gnuplot_ctrl) (env : Env) :
      gnuplot_init p host empty_env = ⟨Status.done, some h, env⟩ → Reachable h env
  | setstyle (h : gnuplot_ctrl) (env : Env) (h1 : gnuplot_ctrl) (env1 : Env)
      (plot_style : String) :
      Reachable h env →
      gnuplot_setstyle (some h) env plot_style = ⟨Status.done, some h1, env1⟩ →
      Reachable h1 env1
  | setterm (p : Platform) (h : gnuplot_ctrl) (env : Env) (h1 : gnuplot_ctrl) (env1 : Env)
      (terminal : String) (width height : Int) :
      Reachable h env →
      gnuplot_setterm p (some h) env terminal width height = ⟨Status.done, some h1, env1⟩ →
      Reachable h1 env1
  | set_axislabel (p : Platform) (h : gnuplot_ctrl) (env : Env) (h1 : gnuplot_ctrl)
      (env1 : Env) (axis label : String) :
      Reachable h env →
      gnuplot_set_axislabel p (some h) env axis label = ⟨Status.done, some h1, env1⟩ →
      Reachable h1 env1
  | resetplot (h : gnuplot_ctrl) (env : Env) (h1 : gnuplot_ctrl) (env1 : Env) :
      Reachable h env →
      gnuplot_resetplot (some h) env = ⟨Status.done, some h1, env1⟩ →
      Reachable h1 env1
  | plot_coordinates (p : Platform) (h : gnuplot_ctrl) (env : Env) (h1 : gnuplot_ctrl)
      (env1 : Env) (x y : Option (List CDouble)) (n : Int) (title : Option String) :
      Reachable h env →
      gnuplot_plot_coordinates p (some h) env x y n title = ⟨Status.done, some h1, env1⟩ →
      Reachable h1 env1
  | splot (p : Platform) (h : gnuplot_ctrl) (env : Env) (h1 : gnuplot_ctrl) (env1 : Env)
      (x y z : Option (List CDouble)) (n : Int) (title : Option String) :
      Reachable h env →
      gnuplot_splot p (some h) env x y z n title = ⟨Status.done, some h1, env1⟩ →
      Reachable h1 env1
  | splot_grid (p : Platform) (h : gnuplot_ctrl) (env : Env) (h1 : gnuplot_ctrl)
      (env1 : Env) (points : Option (List CDouble)) (rows cols : Int)
      (title : Option String) :
      Reachable h env →
      gnuplot_splot_grid p (some h) env points rows cols title
        = ⟨Status.done, some h1, env1⟩ →
      Reachable h1 env1
  | contour_plot (p : Platform) (h : gnuplot_ctrl) (env : Env) (h1 : gnuplot_ctrl)
      (env1 : Env) (x y z : Option (List CDouble)) (nx ny : Int) (title : Option String) :
      Reachable h env →
      gnuplot_contour_plot p (some h) env x y z nx ny title
        = ⟨Status.done, some h1, env1⟩ →
      Reachable h1 env1
  | splot_obj (Obj : Type) (p : Platform) (h : gnuplot_ctrl) (env : Env)
      (h1 : gnuplot_ctrl) (env1 : Env) (obj : Obj) (getPoint : Option (GetPoint Obj))
      (n : Int) (title : Option String) (point0 : gnuplot_point) :
      Reachable h env →
      (gnuplot_splot_obj p (some h) env obj getPoint n title point0).1
        = ⟨Status.done, some h1, env1⟩ →
      Reachable h1 env1
  | plot_obj_xy (Obj : Type) (p : Platform) (h : gnuplot_ctrl) (env : Env)
      (h1 : gnuplot_ctrl) (env1 : Env) (obj : Obj) (getPoint : Option (GetPoint Obj))
      (n : Int) (title : Option String) (point0 : gnuplot_point) :
      Reachable h env →
      (gnuplot_plot_obj_xy p (some h) env obj getPoint n title point0).1
        = ⟨Status.done, some h1, env1⟩ →
      Reachable h1 env1
  | plot_equation (p : Platform) (h : gnuplot_ctrl) (env : Env) (h1 : gnuplot_ctrl)
      (env1 : Env) (equation : String) (title : Option String) :
      Reachable h env →
      gnuplot_plot_equation p (some h) env equation title = ⟨Status.done, some h1, env1⟩ →
      Reachable h1 env1
  | hardcopy (p : Platform) (h : gnuplot_ctrl) (env : Env) (h1 : gnuplot_ctrl) (env1 : Env)
      (filename : String) (color : Option String) :
      Reachable h env →
      gnuplot_hardcopy p (some h) env filename color = ⟨Status.done, some h1, env1⟩ →
      Reachable h1 env1

/-- The paths tracked by a session: the slots `to_delete[0 .. ntmp-1]`. -/
def tracked (h : gnuplot_ctrl) : List String := h.to_delete.take h.ntmp.toNat

/-- The invariant of the reachable states: at most one file is tracked; a tracked file
comes with an active plot; the counter of plots is not negative; the array has its 64
slots; and the files created are, path by path, those handed to `remove` and those
tracked. -/
def session_inv (h : gnuplot_ctrl) (env : Env) : Prop :=
  (h.ntmp = 0 ∨ h.ntmp = 1) ∧ (h.ntmp = 1 → 1 ≤ h.nplots) ∧ 0 ≤ h.nplots
    ∧ h.to_delete.length = 64
    ∧ (env.files.map Prod.fst).Perm (env.removed ++ tracked h)

/-- The outside world after `gnuplot_init` on the sample host: the terminal command was
written. -/
def started_env : Env :=
  { empty_env with pipe := ["set terminal wxt size 900,400\n"] }

/-- The session after `gnuplot_init` on the sample host and one `gnuplot_plot_coordinates`
call: one active plot, one tracked file. -/
def plotted_session : gnuplot_ctrl :=
  { fresh_session with
    nplots := 1, ntmp := 1
    to_delete := fresh_session.to_delete.set 0 "/tmp/gnuplot-i-a1b2c3" }

/-- The outside world after `gnuplot_init` on the sample host and one
`gnuplot_plot_coordinates` call on `x = [0, 1, 2]`. -/
def plotted_env : Env :=
  { empty_env with
    pipe := ["set terminal wxt size 900,400\n",
             "plot \"/tmp/gnuplot-i-a1b2c3\" title \"No title\" with points\n"]
    files := [("/tmp/gnuplot-i-a1b2c3", ["0\n", "1\n", "2\n"])] }

/-! ## Lemmas on formatting and on the shared pieces -/

/-- A format without `%` and without arguments is printed as it is. -/
theorem vformat_of_not_mem (g : CDouble → String) :
    ∀ l : List Char, '%' ∉ l → vformat g l [] = some l := by
  intro l
  induction l with
  | nil => intro _; rfl
  | cons c t ih =>
    intro h
    have hc : c ≠ '%' := fun e => h (by simp [e])
    cases t with
    | nil => simp [vformat, hc]
    | cons k r =>
      have ht : '%' ∉ k :: r := fun e => h (List.mem_cons_of_mem _ e)
      rw [vformat, if_neg hc, ih ht]; rfl

/-- The call `vsprintf` copies a format that holds no `%`. -/
theorem vsprintf_of_not_mem (g : CDouble → String) (s : String) (h : '%' ∉ s.data) :
    vsprintf g s [] = some s := by
  simp [vsprintf, vformat_of_not_mem g s.data h]

/-- On a command without `%`, `gnuplot_cmd` writes the command and a newline, one `fputs`. -/
theorem gnuplot_cmd_plain (p : Platform) (h : gnuplot_ctrl) (env : Env) (cmd : String)
    (hc : '%' ∉ cmd.data) :
    gnuplot_cmd p (some h) env cmd [] =
      ⟨Status.done, some h, { env with pipe := env.pipe ++ [cmd ++ "\n"] }⟩ := by
  simp [gnuplot_cmd, vsprintf_of_not_mem p.g cmd hc]

/-- The function `gnuplot_cmd` touches neither the files, nor the removals, nor the handle. -/
theorem gnuplot_cmd_files (p : Platform) (handle : Option gnuplot_ctrl) (env : Env)
    (cmd : String) (ap : List Arg) :
    (gnuplot_cmd p handle env cmd ap).env.files = env.files
    ∧ (gnuplot_cmd p handle env cmd ap).env.removed = env.removed
    ∧ (gnuplot_cmd p handle env cmd ap).handle = handle := by
  unfold gnuplot_cmd
  cases handle with
  | none => simp
  | some h =>
    cases vsprintf p.g cmd ap <;> simp

/-- The session checks pass when no plot is active and the tracked count is not 63. -/
theorem gnuplot_i_error_eq_none (h : gnuplot_ctrl) (h1 : h.nplots ≤ 0) (h2 : h.ntmp ≠ 63) :
    gnuplot_i_error (some h) = none := by
  have : ¬ h.nplots > 0 := by omega
  simp [gnuplot_i_error, this, GP_MAX_TMP_FILES, h2]

/-- Storing a name succeeds when `ntmp` is the index of one of the 64 slots. -/
theorem store_name_eq (h : gnuplot_ctrl) (name : String) (h0 : 0 ≤ h.ntmp) (h1 : h.ntmp < 64)
    (hl : h.to_delete.length = 64) :
    store_name h name =
      some { h with to_delete := h.to_delete.set h.ntmp.toNat name, ntmp := h.ntmp + 1 } := by
  have : h.ntmp.toNat < h.to_delete.length := by omega
  simp [store_name, GP_MAX_TMP_FILES, h0, h1, this]

/-- Writing slot `k` makes the first `k + 1` slots the first `k` followed by the new name. -/
theorem take_set_append (l : List String) (k : Nat) (name : String) (hk : k < l.length) :
    (l.set k name).take (k + 1) = l.take k ++ [name] := by
  rw [List.take_succ, List.set_take, List.set_eq_of_length_le (by simp)]
  simp [List.getElem?_set_self hk]
  

/-- A loop whose iterations are all defined writes the chunks of its iterations in order. -/
theorem write_loop_eq (body : Int → Option (List String)) (f : Nat → List String) :
    ∀ (k i : Nat), (∀ j, i ≤ j → j < i + k → body (j : Int) = some (f j)) →
      write_loop body k (i : Int) = some ((List.range' i k).flatMap f) := by
  intro k
  induction k with
  | zero => intro i _; simp [write_loop]
  | succ k ih =>
    intro i hb
    have hi : body (i : Int) = some (f i) := hb i (le_refl _) (by omega)
    have hrec := ih (i + 1) (fun j h1 h2 => hb j (by omega) (by omega))
    have hcast : ((i : Int) + 1) = ((i + 1 : Nat) : Int) := by push_cast; rfl
    rw [write_loop, hi]
    simp only [hcast, hrec, Option.map_some']
    simp [List.range'_succ]

/-- The loop from 0 to `n - 1`, when all its iterations are defined. -/
theorem for_rows_eq (n : Int) (body : Int → Option (List String)) (f : Nat → List String)
    (hb : ∀ j : Nat, j < n.toNat → body (j : Int) = some (f j)) :
    for_rows n body = some ((List.range n.toNat).flatMap f) := by
  have := write_loop_eq body f n.toNat 0 (fun j _ h => hb j (by omega))
  simpa [for_rows, List.range_eq_range'] using this

/-- One chunk per iteration: the chunks are the image of the index range. -/
theorem flatMap_singleton_eq_map (l : List Nat) (r : Nat → String) :
    l.flatMap (fun j => [r j]) = l.map r := by
  induction l with
  | nil => rfl
  | cons a t ih => simp [List.flatMap_cons, ih]

/-- A read inside the array gives the element. -/
theorem read_some (xs : List CDouble) (j : Nat) (d : CDouble) (h : j < xs.length) :
    read (some xs) (j : Int) = some (xs.getD j d) := by
  have : ¬ ((j : Int) < 0) := by omega
  simp [read, this, List.getD, List.getElem?_eq_getElem h]


/-- The test of `gnuplot_plot_coordinates` on an array of at least 8 doubles: it compares
`y[0..6]` with `y[1..7]`. -/
theorem memcmp_eq_shift (ys : List CDouble) (h8 : 8 ≤ ys.length) :
    memcmp_eq ys ys.tail ((sizeof_ptr - 1) * sizeof_double)
      = some (decide (ys.take 7 = ys.tail.take 7)) := by
  have h1 : 7 ≤ ys.length := by omega
  have h2 : 7 ≤ ys.length - 1 := by omega
  simp [memcmp_eq, sizeof_ptr, sizeof_double, h1, h2]

/-- With `y` null the data are the one-column rows. -/
theorem coordinates_rows_null (p : Platform) (xs : List CDouble) (n : Int)
    (hx : n.toNat ≤ xs.length) :
    for_rows n (coordinates_row p (some xs) none) = some (one_column p xs n) := by
  rw [for_rows_eq n _ (fun i => [p.g (xs.getD i ⟨0⟩) ++ "\n"])]
  · rw [flatMap_singleton_eq_map]; rfl
  · intro j hj
    simp [coordinates_row, read_some xs j ⟨0⟩ (by omega)]

/-- With the first 8 doubles of `y` identical the data are the one-column rows. -/
theorem coordinates_rows_same (p : Platform) (xs ys : List CDouble) (n : Int)
    (hx : n.toNat ≤ xs.length) (h8 : 8 ≤ ys.length) (heq : ys.take 7 = ys.tail.take 7) :
    for_rows n (coordinates_row p (some xs) (some ys)) = some (one_column p xs n) := by
  rw [for_rows_eq n _ (fun i => [p.g (xs.getD i ⟨0⟩) ++ "\n"])]
  · rw [flatMap_singleton_eq_map]; rfl
  · intro j hj
    simp [coordinates_row, memcmp_eq_shift ys h8, heq, read_some xs j ⟨0⟩ (by omega)]

/-- With a difference among the first 8 doubles of `y` the data are the two-column rows. -/
theorem coordinates_rows_differ (p : Platform) (xs ys : List CDouble) (n : Int)
    (hx : n.toNat ≤ xs.length) (hy : n.toNat ≤ ys.length) (h8 : 8 ≤ ys.length)
    (hne : ys.take 7 ≠ ys.tail.take 7) :
    for_rows n (coordinates_row p (some xs) (some ys)) = some (two_columns p xs ys n) := by
  rw [for_rows_eq n _ (fun i => [p.g (xs.getD i ⟨0⟩) ++ " " ++ p.g (ys.getD i ⟨0⟩) ++ "\n"])]
  · rw [flatMap_singleton_eq_map]; rfl
  · intro j hj
    simp [coordinates_row, memcmp_eq_shift ys h8, hne, read_some xs j ⟨0⟩ (by omega),
      read_some ys j ⟨0⟩ (by omega)]

/-- What `gnuplot_plot_coordinates` does on a session that admits the call, when `mkstemp`
succeeds, the data loop is defined and nothing printed into the command holds a `%`. -/
theorem plot_coordinates_done (p : Platform) (h : gnuplot_ctrl) (env : Env)
    (xs : List CDouble) (y : Option (List CDouble)) (n : Int) (title : Option String)
    (name : String) (rows : List String)
    (hn : 1 ≤ n) (hp : h.nplots ≤ 0) (h0 : 0 ≤ h.ntmp) (h63 : h.ntmp < 63)
    (hl : h.to_delete.length = 64)
    (hmk : p.mkstemp (GNUPLOT_TEMPFILE p.P_tmpdir) = some name)
    (hrows : for_rows n (coordinates_row p (some xs) y) = some rows)
    (hname : '%' ∉ name.data) (htitle : '%' ∉ (title_or_default title).data)
    (hstyle : '%' ∉ h.pstyle.data) :
    gnuplot_plot_coordinates p (some h) env (some xs) y n title =
      ⟨Status.done,
        some { h with to_delete := h.to_delete.set h.ntmp.toNat name, ntmp := h.ntmp + 1,
                      nplots := h.nplots + 1 },
        { env with files := env.files ++ [(name, rows)],
                   pipe := env.pipe ++ ["plot \"" ++ name ++ "\" title \""
                     ++ title_or_default title ++ "\" with " ++ h.pstyle ++ "\n"] }⟩ := by
  have hn' : ¬ n < 1 := by omega
  have hverb : ¬ h.nplots > 0 := by omega
  have hlit : "plot" ++ " \"" = "plot \"" := by decide
  have hcmd : '%' ∉ ("plot \"" ++ name ++ "\" title \""
      ++ title_or_default title ++ "\" with " ++ h.pstyle).data := by
    simp only [String.data_append, List.mem_append, not_or]
    refine ⟨⟨⟨⟨⟨by decide, hname⟩, by decide⟩, htitle⟩, by decide⟩, hstyle⟩
  simp only [gnuplot_plot_coordinates, hn', gnuplot_i_error_eq_none h hp (by omega), hmk,
    store_name_eq h name h0 (by omega) hl, hrows, plot_verb, hverb, if_false, hlit,
    gnuplot_cmd_plain _ _ _ _ hcmd, Outcome.andThen]
  simp

/-- Sending the last command and counting the plot changes neither files nor removals. -/
theorem cmd_then_done_env (p : Platform) (h : gnuplot_ctrl) (env : Env) (cmd : String)
    (ap : List Arg) (hd : Option gnuplot_ctrl) :
    ((gnuplot_cmd p (some h) env cmd ap).andThen fun _ e => ⟨Status.done, hd, e⟩).env.files
      = env.files
    ∧ ((gnuplot_cmd p (some h) env cmd ap).andThen fun _ e => ⟨Status.done, hd, e⟩).env.removed
      = env.removed := by
  unfold gnuplot_cmd
  cases vsprintf p.g cmd ap <;> simp [Outcome.andThen]

/-- Row-major indices of a matrix stay below its size. -/
theorem grid_index_lt (i j r c : Nat) (hi : i < r) (hj : j < c) : i * c + j < r * c := by
  have h1 : (i + 1) * c ≤ r * c := Nat.mul_le_mul_right c hi
  have h2 : (i + 1) * c = i * c + c := by ring
  omega

/-- The data loop of `gnuplot_splot_grid` on a matrix of `rows * cols` values. -/
theorem splot_grid_rows (p : Platform) (pts : List CDouble) (rows cols : Int)
    (hc : 0 ≤ cols) (hlen : pts.length = rows.toNat * cols.toNat) :
    for_rows rows (fun i =>
      (for_rows cols (fun j =>
        (read (some pts) (i * cols + j)).map (fun v =>
          [fmt_d i ++ " " ++ fmt_d j ++ " " ++ p.g v ++ "\n"]))).map
        (fun group => group ++ ["\n"])) = some (grid_data p pts rows cols) := by
  unfold grid_data
  apply for_rows_eq
  intro i hi
  rw [for_rows_eq cols _ (fun (j : Nat) =>
    [fmt_d (i : Int) ++ " " ++ fmt_d (j : Int) ++ " "
      ++ p.g (pts.getD (i * cols.toNat + j) ⟨0⟩) ++ "\n"])]
  · simp [flatMap_singleton_eq_map]
  · intro j hj
    have hcast : ((i : Int) * cols + (j : Int)) = ((i * cols.toNat + j : Nat) : Int) := by
      push_cast
      rw [Int.toNat_of_nonneg hc]
    have hlt : i * cols.toNat + j < pts.length := by
      rw [hlen]; exact grid_index_lt i j _ _ hi hj
    rw [hcast, read_some pts _ ⟨0⟩ hlt]
    rfl

/-- What `gnuplot_plot_equation` does when expression, title and style hold no `%`: one line,
the counter one higher, nothing else changed. -/
theorem plot_equation_plain (p : Platform) (h : gnuplot_ctrl) (env : Env) (equation : String)
    (title : Option String) (he : '%' ∉ equation.data)
    (htitle : '%' ∉ (title_or_default title).data) (hstyle : '%' ∉ h.pstyle.data) :
    gnuplot_plot_equation p (some h) env equation title =
      ⟨Status.done, some { h with nplots := h.nplots + 1 },
        { env with pipe := env.pipe ++ [plot_verb h ++ " " ++ equation ++ " title \""
            ++ title_or_default title ++ "\" with " ++ h.pstyle ++ "\n"] }⟩ := by
  have hverb : '%' ∉ (plot_verb h).data := by
    unfold plot_verb; split <;> decide
  have hcmd : '%' ∉ (plot_verb h ++ " " ++ equation ++ " title \""
      ++ title_or_default title ++ "\" with " ++ h.pstyle).data := by
    simp only [String.data_append, List.mem_append, not_or]
    exact ⟨⟨⟨⟨⟨⟨hverb, by decide⟩, he⟩, by decide⟩, htitle⟩, by decide⟩, hstyle⟩
  simp only [gnuplot_plot_equation, gnuplot_cmd_plain _ _ _ _ hcmd, Outcome.andThen]

/-- A prefix of the format without `%` is copied to the front of the output. -/
theorem vformat_prefix (g : CDouble → String) (l : List Char) (args : List Arg) :
    ∀ pre : List Char, '%' ∉ pre →
      vformat g (pre ++ l) args = (vformat g l args).map (fun r => pre ++ r) := by
  intro pre
  induction pre with
  | nil => intro _; simp
  | cons c t ih =>
    intro h
    have hc : c ≠ '%' := fun e => h (by simp [e])
    have ht : '%' ∉ t := fun e => h (List.mem_cons_of_mem _ e)
    cases hrest : t ++ l with
    | nil =>
      have h1 : t = [] := (List.append_eq_nil.mp hrest).1
      have h2 : l = [] := (List.append_eq_nil.mp hrest).2
      subst h1; subst h2
      simp [vformat, hc]
    | cons k r =>
      rw [List.cons_append, hrest, vformat, if_neg hc, ← hrest, ih ht]
      cases vformat g l args <;> simp

/-- Reading the slots `0 .. k-1` in order gives the first `k` slots. -/
theorem range_map_getD (l : List String) :
    ∀ k : Nat, k ≤ l.length → (List.range k).map (fun j => l.getD j "") = l.take k := by
  intro k
  induction k with
  | zero => intro _; simp
  | succ k ih =>
    intro hk
    have hk' : k < l.length := by omega
    rw [List.range_succ, List.map_append, ih (by omega), List.take_succ]
    simp [List.getD, List.getElem?_eq_getElem hk']

/-- A slot read inside the array gives the slot. -/
theorem slot_eq (h : gnuplot_ctrl) (j : Nat) (hj : j < 64) (hl : h.to_delete.length = 64) :
    slot h (j : Int) = some (h.to_delete.getD j "") := by
  have h1 : (0 : Int) ≤ j := by omega
  have h2 : (j : Int) < 64 := by omega
  have h3 : j < h.to_delete.length := by omega
  simp [slot, GP_MAX_TMP_FILES, h2, List.getD, List.getElem?_eq_getElem h3]

/-- The function `gnuplot_resetplot` on a session that tracks at most 64 files. -/
theorem resetplot_eq (h : gnuplot_ctrl) (env : Env) (hn : h.ntmp ≤ 64)
    (hl : h.to_delete.length = 64) :
    gnuplot_resetplot (some h) env =
      ⟨Status.done, some { h with ntmp := 0, nplots := 0 },
        { env with removed := env.removed ++ h.to_delete.take h.ntmp.toNat }⟩ := by
  have hloop : for_rows h.ntmp (fun i => (slot h i).map (fun name => [name]))
      = some (h.to_delete.take h.ntmp.toNat) := by
    rw [for_rows_eq h.ntmp _ (fun j => [h.to_delete.getD j ""])]
    · rw [flatMap_singleton_eq_map, range_map_getD _ _ (by omega)]
    · intro j hj
      rw [slot_eq h j (by omega) hl]; rfl
  unfold gnuplot_resetplot
  by_cases h0 : h.ntmp = 0
  · simp [h0]
  · simp [h0, hloop]

/-- What `vsprintf` prints starts with the part of the format that precedes the first `%`. -/
theorem vsprintf_prefix (g : CDouble → String) (pre rest lc : String)
    (hpre : '%' ∉ pre.data) (h : vsprintf g (pre ++ rest) [] = some lc) :
    ∃ tail, lc = pre ++ tail := by
  unfold vsprintf at h
  rw [String.data_append, vformat_prefix g _ [] pre.data hpre] at h
  cases hv : vformat g rest.data [] with
  | none => simp [hv] at h
  | some r =>
    simp only [hv, Option.map_some', Option.some.injEq] at h
    exact ⟨String.mk r, h.symm⟩

/-- Sending the last command either writes one line and returns, or is undefined and writes
nothing. -/
theorem cmd_then_done_cases (p : Platform) (h : gnuplot_ctrl) (env : Env) (cmd : String)
    (hd : Option gnuplot_ctrl) :
    (((gnuplot_cmd p (some h) env cmd []).andThen fun _ e => ⟨Status.done, hd, e⟩).status
        = Status.done
      ∧ ∃ lc, vsprintf p.g cmd [] = some lc
        ∧ ((gnuplot_cmd p (some h) env cmd []).andThen fun _ e => ⟨Status.done, hd, e⟩).env.pipe
          = env.pipe ++ [lc ++ "\n"])
    ∨ (((gnuplot_cmd p (some h) env cmd []).andThen fun _ e => ⟨Status.done, hd, e⟩).status
        = Status.undefined
      ∧ ((gnuplot_cmd p (some h) env cmd []).andThen fun _ e => ⟨Status.done, hd, e⟩).env.pipe
          = env.pipe) := by
  unfold gnuplot_cmd
  cases vsprintf p.g cmd [] with
  | none => right; simp [Outcome.andThen]
  | some lc => left; simp [Outcome.andThen]

/-- Storing a name changes neither style, nor counter of plots, nor terminal, nor pipe handle. -/
theorem store_name_frame (h h1 : gnuplot_ctrl) (name : String)
    (hs : store_name h name = some h1) :
    h1.pstyle = h.pstyle ∧ h1.nplots = h.nplots ∧ h1.term = h.term ∧ h1.gnucmd = h.gnucmd := by
  unfold store_name at hs
  split at hs
  · cases hs; exact ⟨rfl, rfl, rfl, rfl⟩
  · cases hs

/-- On a session that passes the checks, `gnuplot_plot_coordinates` ends in no session-check
exit, and a line it writes starts with `plot "`. -/
theorem plot_coordinates_verb (p : Platform) (h : gnuplot_ctrl) (env : Env)
    (xs : List CDouble) (y : Option (List CDouble)) (n : Int) (title : Option String)
    (hn : 1 ≤ n) (hp : h.nplots ≤ 0) (h63 : h.ntmp ≠ 63) :
    ((gnuplot_plot_coordinates p (some h) env (some xs) y n title).status = Status.done
      ∨ (gnuplot_plot_coordinates p (some h) env (some xs) y n title).status
          = Status.exit GpError.TempFileError
      ∨ (gnuplot_plot_coordinates p (some h) env (some xs) y n title).status
          = Status.undefined)
    ∧ ((gnuplot_plot_coordinates p (some h) env (some xs) y n title).env.pipe = env.pipe
      ∨ ∃ rest, (gnuplot_plot_coordinates p (some h) env (some xs) y n title).env.pipe
          = env.pipe ++ ["plot \"" ++ rest]) := by
  have hn' : ¬ n < 1 := by omega
  have hverb : ¬ h.nplots > 0 := by omega
  have hlit : "plot" ++ " \"" = "plot \"" := by decide
  unfold gnuplot_plot_coordinates
  simp only [hn', gnuplot_i_error_eq_none h hp h63, or_false, reduceCtorEq, if_false]
  split
  · simp
  · split
    · simp
    · rename_i name _ _ h1 hs
      split
      · simp
      · rename_i rows _
        have hverb1 : ¬ h1.nplots > 0 := by rw [(store_name_frame h h1 name hs).2.1]; exact hverb
        simp only [plot_verb, hverb1, if_false, hlit]
        rcases cmd_then_done_cases p h1 _ _ _ with ⟨hst, lc, hlc, hpipe⟩ | ⟨hst, hpipe⟩
        · refine ⟨Or.inl hst, Or.inr ?_⟩
          simp only [String.append_assoc] at hlc
          obtain ⟨tail, rfl⟩ := vsprintf_prefix p.g _ _ lc (by decide) hlc
          exact ⟨tail ++ "\n", by rw [hpipe, String.append_assoc]⟩
        · exact ⟨Or.inr (Or.inr hst), Or.inl hpipe⟩

/-- The session checks never raise the argument error. -/
theorem gnuplot_i_error_ne_invalid_argument (handle : Option gnuplot_ctrl) :
    gnuplot_i_error handle ≠ some GpError.InvalidArgument := by
  unfold gnuplot_i_error
  cases handle with
  | none => simp
  | some h => dsimp only; split_ifs <;> simp

/-- Sending the last command never ends in an `exit`. -/
theorem cmd_then_done_status (p : Platform) (h : gnuplot_ctrl) (env : Env) (cmd : String)
    (ap : List Arg) (hd : Option gnuplot_ctrl) (e : GpError) :
    ((gnuplot_cmd p (some h) env cmd ap).andThen fun _ e => ⟨Status.done, hd, e⟩).status
      ≠ Status.exit e := by
  unfold gnuplot_cmd
  cases vsprintf p.g cmd ap <;> simp [Outcome.andThen]

/-- The argument check of `gnuplot_splot`, exactly: `x`, `y` and `n`; `z` is not part of it. -/
theorem splot_invalid_argument_iff (p : Platform) (handle : Option gnuplot_ctrl) (env : Env)
    (x y z : Option (List CDouble)) (n : Int) (title : Option String) :
    (gnuplot_splot p handle env x y z n title).status = Status.exit GpError.InvalidArgument
      ↔ (x = none ∨ y = none ∨ n < 1) := by
  unfold gnuplot_splot
  by_cases hc : x = none ∨ y = none ∨ n < 1
  · simp [hc]
  · simp only [hc, if_false, iff_false]
    split
    · rename_i e he
      intro hh
      have : e = GpError.InvalidArgument := by simpa using hh
      exact gnuplot_i_error_ne_invalid_argument handle (this ▸ he)
    · split
      · simp
      · split
        · simp
        · split
          · simp
          · split
            · simp
            · exact cmd_then_done_status _ _ _ _ _ _ _

/-- The argument check of `gnuplot_contour_plot`, exactly: `x`, `y`, `nx` and `ny`; `z` is not
part of it. -/
theorem contour_invalid_argument_iff (p : Platform) (handle : Option gnuplot_ctrl) (env : Env)
    (x y z : Option (List CDouble)) (nx ny : Int) (title : Option String) :
    (gnuplot_contour_plot p handle env x y z nx ny title).status
        = Status.exit GpError.InvalidArgument
      ↔ (x = none ∨ y = none ∨ nx < 1 ∨ ny < 1) := by
  unfold gnuplot_contour_plot
  by_cases hc : x = none ∨ y = none ∨ nx < 1 ∨ ny < 1
  · simp [hc]
  · simp only [hc, if_false, iff_false]
    split
    · rename_i e he
      intro hh
      have : e = GpError.InvalidArgument := by simpa using hh
      exact gnuplot_i_error_ne_invalid_argument handle (this ▸ he)
    · split
      · simp
      · split
        · simp
        · split
          · simp
          · split
            · simp
            · simp only [gnuplot_cmd_plain p _ _ "unset surface" (by decide),
                gnuplot_cmd_plain p _ _ "set contour base" (by decide),
                gnuplot_cmd_plain p _ _ "set view map" (by decide),
                gnuplot_cmd_plain p _ _ "set view 0,0" (by decide), Outcome.andThen]
              exact cmd_then_done_status _ _ _ _ _ _ _

/-- The function `gnuplot_setstyle` on a session: a recognised name is stored, any other name
gives the warning and the style `points`; no other field changes. -/
theorem setstyle_eq (h : gnuplot_ctrl) (env : Env) (plot_style : String) :
    gnuplot_setstyle (some h) env plot_style =
      if plot_style ∈ recognised_styles then
        ⟨Status.done, some { h with pstyle := plot_style }, env⟩
      else
        ⟨Status.done, some { h with pstyle := "points" },
          { env with stderr := env.stderr ++
              ["Warning: unknown requested plot style: using default 'points'\n"] }⟩ := by
  have hiff : (plot_style ≠ "lines" ∧ plot_style ≠ "points" ∧ plot_style ≠ "linespoints"
        ∧ plot_style ≠ "impulses" ∧ plot_style ≠ "dots" ∧ plot_style ≠ "steps"
        ∧ plot_style ≠ "filledcurves" ∧ plot_style ≠ "errorbars" ∧ plot_style ≠ "boxes"
        ∧ plot_style ≠ "boxerrorbars") ↔ plot_style ∉ recognised_styles := by
    simp only [recognised_styles, List.mem_cons, List.mem_singleton, List.not_mem_nil,
      or_false, not_or, ne_eq]
  simp only [gnuplot_setstyle, hiff]
  by_cases hm : plot_style ∈ recognised_styles <;> simp [hm]

/-- The function `gnuplot_cmd` never ends in an `exit`. -/
theorem gnuplot_cmd_status (p : Platform) (handle : Option gnuplot_ctrl) (env : Env)
    (cmd : String) (ap : List Arg) (e : GpError) :
    (gnuplot_cmd p handle env cmd ap).status ≠ Status.exit e := by
  unfold gnuplot_cmd
  cases handle with
  | none => simp
  | some h => cases vsprintf p.g cmd ap <;> simp

/-- No digit character is a percent sign. -/
theorem digitChar_ne_percent (m : Nat) : Nat.digitChar m ≠ '%' := by
  by_cases h : m < 16
  · interval_cases m <;> decide
  · have hstar : Nat.digitChar m = '*' := by
      unfold Nat.digitChar
      repeat rw [if_neg (by omega)]
    rw [hstar]
    decide

/-- The digits of a number hold no percent sign. -/
theorem toDigitsCore_no_percent (b : Nat) :
    ∀ (fuel n : Nat) (ds : List Char), '%' ∉ ds → '%' ∉ Nat.toDigitsCore b fuel n ds := by
  intro fuel
  induction fuel with
  | zero => intro n ds h; simpa [Nat.toDigitsCore] using h
  | succ f ih =>
    intro n ds h
    have hd : '%' ∉ Nat.digitChar (n % b) :: ds := by
      intro hm
      rcases List.mem_cons.mp hm with e | e
      · exact digitChar_ne_percent _ e.symm
      · exact h e
    unfold Nat.toDigitsCore
    dsimp only
    split
    · exact hd
    · exact ih _ _ hd

/-- The decimal form of a natural number holds no percent sign. -/
theorem repr_no_percent (m : Nat) : '%' ∉ (Nat.repr m).data := by
  unfold Nat.repr Nat.toDigits
  exact toDigitsCore_no_percent 10 _ _ [] (by simp)

/-- What `%d` prints holds no percent sign. -/
theorem fmt_d_no_percent (i : Int) : '%' ∉ (fmt_d i).data := by
  unfold fmt_d
  cases i with
  | ofNat m => exact repr_no_percent m
  | negSucc m =>
    show '%' ∉ ("-" ++ Nat.repr (m + 1)).data
    rw [String.data_append, List.mem_append, not_or]
    exact ⟨by decide, repr_no_percent _⟩

/-- A format that ends in `%s`, with no `%` before it, prints its text and then the argument as
it is. -/
theorem vsprintf_one_string (g : CDouble → String) (pre : String) (s : String)
    (hpre : '%' ∉ pre.data) :
    vsprintf g (pre ++ "%s") [Arg.str s] = some (pre ++ s) := by
  unfold vsprintf
  rw [String.data_append, vformat_prefix g _ _ pre.data hpre]
  obtain ⟨sl⟩ := s
  obtain ⟨pl⟩ := pre
  simp [vformat, conversion]
  rfl

/-- When `vsprintf` prints `line`, `gnuplot_cmd` writes `line` and a newline and returns. -/
theorem gnuplot_cmd_fmt (p : Platform) (h : gnuplot_ctrl) (env : Env) (cmd : String)
    (ap : List Arg) (line : String) (hv : vsprintf p.g cmd ap = some line) :
    gnuplot_cmd p (some h) env cmd ap =
      ⟨Status.done, some h, { env with pipe := env.pipe ++ [line ++ "\n"] }⟩ := by
  simp [gnuplot_cmd, hv]

/-- What `gnuplot_setterm` does for sizes that are not negative and a stored name without `%`:
the first 31 characters are stored, one command with the stored name is written, nothing
else changes. -/
theorem setterm_plain (p : Platform) (h : gnuplot_ctrl) (env : Env) (terminal : String)
    (width height : Int) (hw : 0 ≤ width) (hh : 0 ≤ height)
    (hname : '%' ∉ (copy_term terminal).data) :
    gnuplot_setterm p (some h) env terminal width height =
      ⟨Status.done, some { h with term := copy_term terminal },
        { env with pipe := env.pipe ++ ["set terminal " ++ copy_term terminal ++ " size "
            ++ fmt_d width ++ "," ++ fmt_d height ++ "\n"] }⟩ := by
  have hd : ¬ (width < 0 ∨ height < 0) := by omega
  have hcmd : '%' ∉ ("set terminal " ++ copy_term terminal ++ " size "
      ++ fmt_d width ++ "," ++ fmt_d height).data := by
    simp only [String.data_append, List.mem_append, not_or]
    exact ⟨⟨⟨⟨⟨by decide, hname⟩, by decide⟩, fmt_d_no_percent _⟩, by decide⟩,
      fmt_d_no_percent _⟩
  simp only [gnuplot_setterm, hd, if_false, gnuplot_cmd_plain _ _ _ _ hcmd]

/-- Dropping a prefix whose characters all pass the test. -/
theorem dropWhile_append_all (q : Char → Bool) (l r : List Char) (h : ∀ c ∈ l, q c = true) :
    (l ++ r).dropWhile q = r.dropWhile q := by
  induction l with
  | nil => rfl
  | cons a t ih =>
    have ha : q a = true := h a (List.mem_cons_self _ _)
    simp only [List.cons_append, List.dropWhile_cons, ha, if_true]
    exact ih (fun c hc => h c (List.mem_cons_of_mem _ hc))

/-- The final loop of `gnuplot_get_program_path` leaves the directory when the name holds no
`/`. -/
theorem strip_name_dir (dir name : List Char) (hn : '/' ∉ name) :
    strip_name (dir ++ ['/'] ++ name) = dir := by
  unfold strip_name
  have hrev : (dir ++ ['/'] ++ name).reverse = name.reverse ++ ('/' :: dir.reverse) := by
    simp
  rw [hrev, dropWhile_append_all _ _ _ (by
    intro c hc
    have : c ≠ '/' := fun e => hn (e ▸ List.mem_reverse.mp hc)
    simpa using this)]
  simp [List.dropWhile_cons]

/-- When `./pname` is executable, `gnuplot_get_program_path` returns `.`. -/
theorem program_path_cwd (host : Host) (pname : String)
    (hx : host.access ("./" ++ pname) = true) :
    gnuplot_get_program_path host pname = PathResult.returned (some ".") := by
  simp [gnuplot_get_program_path, hx]

/-- When `./pname` is not executable and the name holds no `/`, `gnuplot_get_program_path`
returns the first piece of `PATH` under which the name is executable, `.` for an empty
piece. -/
theorem program_path_found (host : Host) (pname path : String) (piece : List Char)
    (hx : host.access ("./" ++ pname) = false) (hpath : host.PATH = some path)
    (hfind : (path_scan path.data none).find?
      (fun piece => host.access (String.mk (candidate piece pname))) = some piece)
    (hname : '/' ∉ pname.data) :
    gnuplot_get_program_path host pname =
      PathResult.returned (some (String.mk (if piece = [] then ['.'] else piece))) := by
  have hstrip : strip_name (candidate piece pname) = if piece = [] then ['.'] else piece := by
    unfold candidate
    exact strip_name_dir _ _ hname
  simp [gnuplot_get_program_path, hx, hpath, hfind, hstrip]

/-- When the name is executable neither in the working directory nor under a piece of `PATH`,
`gnuplot_get_program_path` leaves through its `FAIL_IF`. -/
theorem program_path_not_found (host : Host) (pname path : String)
    (hx : host.access ("./" ++ pname) = false) (hpath : host.PATH = some path)
    (hfind : ∀ piece ∈ path_scan path.data none,
      host.access (String.mk (candidate piece pname)) = false) :
    gnuplot_get_program_path host pname = PathResult.exit GpError.ExecutableNotFound := by
  have : (path_scan path.data none).find?
      (fun piece => host.access (String.mk (candidate piece pname))) = none := by
    rw [List.find?_eq_none]
    intro piece hp
    simp [hfind piece hp]
  simp [gnuplot_get_program_path, hx, hpath, this]

/-- The data loop of the callback operations from index `i` on: call `j` works on what call `j -
1` left, and row `j` is printed from the point call `j` leaves. -/
theorem callback_loop_eq {Obj : Type} (getPoint : GetPoint Obj) (row : gnuplot_point → String)
    (n : Int) (obj : Obj) (point0 : gnuplot_point) :
    ∀ (k i : Nat),
      callback_loop getPoint row n k (i : Int) (callback_states getPoint n obj point0 i).1
          (callback_states getPoint n obj point0 i).2
        = ((List.range' i k).map
            (fun j => row (callback_states getPoint n obj point0 (j + 1)).2),
           (callback_states getPoint n obj point0 (i + k)).1) := by
  intro k
  induction k with
  | zero => intro i; simp [callback_loop]
  | succ k ih =>
    intro i
    have hcast : ((i : Int) + 1) = ((i + 1 : Nat) : Int) := by push_cast; rfl
    have hstep : getPoint (callback_states getPoint n obj point0 i).1
        (callback_states getPoint n obj point0 i).2 (i : Int) n
        = callback_states getPoint n obj point0 (i + 1) := rfl
    simp only [callback_loop, hstep, hcast, ih (i + 1), List.range'_succ, List.map_cons]
    have : i + 1 + k = i + (k + 1) := by omega
    rw [this]

/-- The data loop of the callback operations, from index 0. -/
theorem callback_loop_rows {Obj : Type} (getPoint : GetPoint Obj)
    (row : gnuplot_point → String) (n : Int) (obj : Obj) (point0 : gnuplot_point) (k : Nat) :
    callback_loop getPoint row n k 0 obj point0
      = ((List.range k).map (fun j => row (callback_states getPoint n obj point0 (j + 1)).2),
         (callback_states getPoint n obj point0 k).1) := by
  have := callback_loop_eq getPoint row n obj point0 k 0
  simpa [callback_states, List.range_eq_range'] using this

/-- The recording callback handles object and point as the callback does, and after `k` calls
the record holds the indices `0 .. k-1`, each with the count `n`. -/
theorem logged_states {Obj : Type} (getPoint : GetPoint Obj) (n : Int) (obj : Obj)
    (log : List (Int × Int)) (point0 : gnuplot_point) :
    ∀ k : Nat, callback_states (logged getPoint) n (obj, log) point0 k
      = (((callback_states getPoint n obj point0 k).1,
          log ++ (List.range k).map (fun (j : Nat) => ((j : Int), n))),
         (callback_states getPoint n obj point0 k).2) := by
  intro k
  induction k with
  | zero => simp [callback_states]
  | succ k ih =>
    simp only [callback_states, ih, logged, List.range_succ, List.map_append, List.map_cons,
      List.map_nil, List.append_assoc]

/-- The data loop of `gnuplot_contour_plot` is defined when every index `nx * i + j` it reads
lies inside the three arrays. -/
theorem contour_rows_defined (p : Platform) (xs ys zs : List CDouble) (nx ny : Int)
    (hnx : 0 ≤ nx)
    (hx : ∀ i j : Nat, i < nx.toNat → j < ny.toNat → nx.toNat * i + j < xs.length)
    (hy : ∀ i j : Nat, i < nx.toNat → j < ny.toNat → nx.toNat * i + j < ys.length)
    (hz : ∀ i j : Nat, i < nx.toNat → j < ny.toNat → nx.toNat * i + j < zs.length) :
    ∃ data, for_rows nx (fun i =>
      (for_rows ny (fun j =>
        match read (some xs) (nx * i + j), read (some ys) (nx * i + j),
          read (some zs) (nx * i + j) with
        | some xv, some yv, some zv =>
          some [p.g xv ++ " " ++ p.g yv ++ " " ++ p.g zv ++ "\n"]
        | _, _, _ => none)).map
        (fun group => group ++ ["\n"])) = some data := by
  refine ⟨_, for_rows_eq nx _ (fun (i : Nat) =>
    ((List.range ny.toNat).flatMap (fun (j : Nat) =>
      [p.g (xs.getD (nx.toNat * i + j) ⟨0⟩) ++ " " ++ p.g (ys.getD (nx.toNat * i + j) ⟨0⟩)
        ++ " " ++ p.g (zs.getD (nx.toNat * i + j) ⟨0⟩) ++ "\n"])) ++ ["\n"]) ?_⟩
  intro i hi
  rw [for_rows_eq ny _ (fun (j : Nat) =>
    [p.g (xs.getD (nx.toNat * i + j) ⟨0⟩) ++ " " ++ p.g (ys.getD (nx.toNat * i + j) ⟨0⟩)
      ++ " " ++ p.g (zs.getD (nx.toNat * i + j) ⟨0⟩) ++ "\n"])]
  · rfl
  · intro j hj
    have hcast : (nx * (i : Int) + (j : Int)) = ((nx.toNat * i + j : Nat) : Int) := by
      push_cast
      rw [Int.toNat_of_nonneg hnx]
    rw [hcast, read_some xs _ ⟨0⟩ (hx i j hi hj), read_some ys _ ⟨0⟩ (hy i j hi hj),
      read_some zs _ ⟨0⟩ (hz i j hi hj)]

/-- What `gnuplot_hardcopy` does on a session: four lines are written and the call returns;
the handle, the files and the removals are as before. -/
theorem hardcopy_eq (p : Platform) (h : gnuplot_ctrl) (env : Env) (filename : String)
    (color : Option String) :
    gnuplot_hardcopy p (some h) env filename color =
      ⟨Status.done, some h,
        { env with pipe := env.pipe ++
            [(match color with
              | none => "set terminal postscript"
              | some _ => "set terminal postscript enhanced color") ++ "\n",
             "set output \"" ++ filename ++ "\"" ++ "\n",
             "replot" ++ "\n",
             "set terminal " ++ h.term ++ "\n"] }⟩ := by
  have h2 : vsprintf p.g "set output \"%s\"" [Arg.str filename]
      = some ("set output \"" ++ filename ++ "\"") := by
    obtain ⟨f⟩ := filename
    rfl
  have h4 : vsprintf p.g "set terminal %s" [Arg.str h.term] = some ("set terminal " ++ h.term) :=
    vsprintf_one_string p.g "set terminal " h.term (by decide)
  unfold gnuplot_hardcopy
  cases color with
  | none =>
    simp only [gnuplot_cmd_plain p h _ "set terminal postscript" (by decide),
      gnuplot_cmd_plain p h _ "replot" (by decide), Outcome.andThen,
      gnuplot_cmd_fmt p h _ _ _ _ h2, gnuplot_cmd_fmt p h _ _ _ _ h4]
    simp
  | some c =>
    simp only [gnuplot_cmd_plain p h _ "set terminal postscript enhanced color" (by decide),
      gnuplot_cmd_plain p h _ "replot" (by decide), Outcome.andThen,
      gnuplot_cmd_fmt p h _ _ _ _ h2, gnuplot_cmd_fmt p h _ _ _ _ h4]
    simp

/-- When sending the last command and counting the plot returns, the handle is the counted one
and neither files nor removals changed. -/
theorem cmd_then_done_inv (p : Platform) (hs : gnuplot_ctrl) (env2 : Env) (cmd : String)
    (hd : Option gnuplot_ctrl) (h1 : gnuplot_ctrl) (env1 : Env)
    (heq : ((gnuplot_cmd p (some hs) env2 cmd []).andThen fun _ e => ⟨Status.done, hd, e⟩)
      = ⟨Status.done, some h1, env1⟩) :
    hd = some h1 ∧ env1.files = env2.files ∧ env1.removed = env2.removed := by
  unfold gnuplot_cmd at heq
  cases hv : vsprintf p.g cmd [] with
  | none => simp [hv, Outcome.andThen] at heq
  | some line =>
    simp only [hv, Outcome.andThen, Outcome.mk.injEq, true_and] at heq
    obtain ⟨h1eq, h2eq⟩ := heq
    subst h2eq
    exact ⟨h1eq, rfl, rfl⟩

/-- A `gnuplot_plot_coordinates` call that returns is a plot step. -/
theorem plot_coordinates_step (p : Platform) (h : gnuplot_ctrl) (env : Env)
    (x y : Option (List CDouble)) (n : Int) (title : Option String) (h1 : gnuplot_ctrl)
    (env1 : Env)
    (hd : gnuplot_plot_coordinates p (some h) env x y n title = ⟨Status.done, some h1, env1⟩) :
    PlotStep h env h1 env1 := by
  unfold gnuplot_plot_coordinates at hd
  split at hd
  · simp at hd
  · split at hd
    · simp at hd
    · rename_i herr
      split at hd
      · simp at hd
      · rename_i h' hh
        cases hh
        split at hd
        · simp at hd
        · rename_i name _
          split at hd
          · simp at hd
          · rename_i hs hst
            split at hd
            · simp at hd
            · rename_i rows _
              obtain ⟨e1, e2, e3⟩ := cmd_then_done_inv _ _ _ _ _ _ _ hd
              refine ⟨name, rows, hs, herr, hst, ?_, ?_, e3⟩
              · exact (Option.some.inj e1).symm
              · rw [e2]

/-- A `gnuplot_splot` call that returns is a plot step. -/
theorem splot_step (p : Platform) (h : gnuplot_ctrl) (env : Env)
    (x y z : Option (List CDouble)) (n : Int) (title : Option String) (h1 : gnuplot_ctrl)
    (env1 : Env)
    (hd : gnuplot_splot p (some h) env x y z n title = ⟨Status.done, some h1, env1⟩) :
    PlotStep h env h1 env1 := by
  unfold gnuplot_splot at hd
  split at hd
  · simp at hd
  · split at hd
    · simp at hd
    · rename_i herr
      split at hd
      · simp at hd
      · rename_i h' hh
        cases hh
        split at hd
        · simp at hd
        · rename_i name _
          split at hd
          · simp at hd
          · rename_i hs hst
            split at hd
            · simp at hd
            · rename_i rows _
              obtain ⟨e1, e2, e3⟩ := cmd_then_done_inv _ _ _ _ _ _ _ hd
              refine ⟨name, rows, hs, herr, hst, ?_, ?_, e3⟩
              · exact (Option.some.inj e1).symm
              · rw [e2]

/-- A `gnuplot_splot_grid` call that returns is a plot step. -/
theorem splot_grid_step (p : Platform) (h : gnuplot_ctrl) (env : Env)
    (points : Option (List CDouble)) (rows cols : Int) (title : Option String)
    (h1 : gnuplot_ctrl) (env1 : Env)
    (hd : gnuplot_splot_grid p (some h) env points rows cols title
      = ⟨Status.done, some h1, env1⟩) :
    PlotStep h env h1 env1 := by
  unfold gnuplot_splot_grid at hd
  split at hd
  · simp at hd
  · split at hd
    · simp at hd
    · rename_i herr
      split at hd
      · simp at hd
      · rename_i h' hh
        cases hh
        split at hd
        · simp at hd
        · rename_i name _
          split at hd
          · simp at hd
          · rename_i hs hst
            split at hd
            · simp at hd
            · rename_i data _
              obtain ⟨e1, e2, e3⟩ := cmd_then_done_inv _ _ _ _ _ _ _ hd
              refine ⟨name, data, hs, herr, hst, ?_, ?_, e3⟩
              · exact (Option.some.inj e1).symm
              · rw [e2]

/-- A `gnuplot_contour_plot` call that returns is a plot step. -/
theorem contour_plot_step (p : Platform) (h : gnuplot_ctrl) (env : Env)
    (x y z : Option (List CDouble)) (nx ny : Int) (title : Option String) (h1 : gnuplot_ctrl)
    (env1 : Env)
    (hd : gnuplot_contour_plot p (some h) env x y z nx ny title
      = ⟨Status.done, some h1, env1⟩) :
    PlotStep h env h1 env1 := by
  unfold gnuplot_contour_plot at hd
  split at hd
  · simp at hd
  · split at hd
    · simp at hd
    · rename_i herr
      split at hd
      · simp at hd
      · rename_i h' hh
        cases hh
        split at hd
        · simp at hd
        · rename_i name _
          split at hd
          · simp at hd
          · rename_i hs hst
            split at hd
            · simp at hd
            · rename_i data _
              simp only [gnuplot_cmd_plain p _ _ "unset surface" (by decide),
                gnuplot_cmd_plain p _ _ "set contour base" (by decide),
                gnuplot_cmd_plain p _ _ "set view map" (by decide),
                gnuplot_cmd_plain p _ _ "set view 0,0" (by decide)] at hd
              rw [Outcome.andThen, Outcome.andThen, Outcome.andThen, Outcome.andThen] at hd
              obtain ⟨e1, e2, e3⟩ := cmd_then_done_inv _ _ _ _ _ _ _ hd
              refine ⟨name, data, hs, herr, hst, ?_, ?_, e3⟩
              · exact (Option.some.inj e1).symm
              · rw [e2]

/-- A `gnuplot_splot_obj` call that returns is a plot step. -/
theorem splot_obj_step {Obj : Type} (p : Platform) (h : gnuplot_ctrl) (env : Env)
    (obj : Obj) (getPoint : Option (GetPoint Obj)) (n : Int) (title : Option String)
    (point0 : gnuplot_point) (h1 : gnuplot_ctrl) (env1 : Env)
    (hd : (gnuplot_splot_obj p (some h) env obj getPoint n title point0).1
      = ⟨Status.done, some h1, env1⟩) :
    PlotStep h env h1 env1 := by
  unfold gnuplot_splot_obj at hd
  split at hd
  · simp at hd
  · split at hd
    · simp at hd
    · split at hd
      · simp at hd
      · rename_i herr
        split at hd
        · simp at hd
        · rename_i h' hh
          cases hh
          split at hd
          · simp at hd
          · rename_i name _
            split at hd
            · simp at hd
            · rename_i hs hst
              obtain ⟨e1, e2, e3⟩ := cmd_then_done_inv _ _ _ _ _ _ _ hd
              exact ⟨name, _, hs, herr, hst, (Option.some.inj e1).symm, e2, e3⟩

/-- A `gnuplot_plot_obj_xy` call that returns is a plot step. -/
theorem plot_obj_xy_step {Obj : Type} (p : Platform) (h : gnuplot_ctrl) (env : Env)
    (obj : Obj) (getPoint : Option (GetPoint Obj)) (n : Int) (title : Option String)
    (point0 : gnuplot_point) (h1 : gnuplot_ctrl) (env1 : Env)
    (hd : (gnuplot_plot_obj_xy p (some h) env obj getPoint n title point0).1
      = ⟨Status.done, some h1, env1⟩) :
    PlotStep h env h1 env1 := by
  unfold gnuplot_plot_obj_xy at hd
  split at hd
  · simp at hd
  · split at hd
    · simp at hd
    · split at hd
      · simp at hd
      · rename_i herr
        split at hd
        · simp at hd
        · rename_i h' hh
          cases hh
          split at hd
          · simp at hd
          · rename_i name _
            split at hd
            · simp at hd
            · rename_i hs hst
              obtain ⟨e1, e2, e3⟩ := cmd_then_done_inv _ _ _ _ _ _ _ hd
              exact ⟨name, _, hs, herr, hst, (Option.some.inj e1).symm, e2, e3⟩

/-- When `gnuplot_init` returns, the session has no plot and no tracked file, style `points`,
terminal `wxt`, its 64 slots, and one command was written: the terminal command. -/
theorem init_done_inv (p : Platform) (host : Host) (env0 : Env) (h : gnuplot_ctrl)
    (env : Env) (hd : gnuplot_init p host env0 = ⟨Status.done, some h, env⟩) :
    (∃ stream, h = ⟨stream, 0, "points", "wxt", (List.range 64).map host.slots, 0⟩)
    ∧ env = { env0 with pipe := env0.pipe ++ ["set terminal wxt size 900,400\n"] } := by
  unfold gnuplot_init at hd
  split at hd
  · simp at hd
  · split at hd
    · simp at hd
    · simp at hd
    · split at hd
      · simp at hd
      · simp at hd
      · dsimp only at hd
        rw [setstyle_eq, if_pos (by decide)] at hd
        simp only [Outcome.andThen] at hd
        split at hd
        · simp at hd
        · rename_i stream _
          rw [setterm_plain p _ _ "wxt" 900 400 (by decide) (by decide) (by decide)] at hd
          simp only [Outcome.mk.injEq, true_and, Option.some.injEq] at hd
          obtain ⟨e1, e2⟩ := hd
          subst e1; subst e2
          exact ⟨⟨stream, rfl⟩, rfl⟩

/-- The invariant survives a step that keeps slots, tracked count, files and removals, and does
not lower the counter of plots. -/
theorem inv_frame (h : gnuplot_ctrl) (env : Env) (h1 : gnuplot_ctrl) (env1 : Env)
    (hi : session_inv h env) (hn : h1.ntmp = h.ntmp) (ht : h1.to_delete = h.to_delete)
    (hp : h.nplots ≤ h1.nplots) (hf : env1.files = env.files)
    (hr : env1.removed = env.removed) : session_inv h1 env1 := by
  obtain ⟨i1, i2, i3, i4, i5⟩ := hi
  refine ⟨by rw [hn]; exact i1, ?_, by omega, by rw [ht]; exact i4, ?_⟩
  · intro h1n
    have := i2 (by rw [← hn]; exact h1n)
    omega
  · simpa [tracked, hn, ht, hf, hr] using i5

/-- The invariant survives a plot step: the step starts with no tracked file and ends with one,
in slot 0. -/
theorem inv_plot (h : gnuplot_ctrl) (env : Env) (h1 : gnuplot_ctrl) (env1 : Env)
    (hi : session_inv h env) (hs : PlotStep h env h1 env1) : session_inv h1 env1 := by
  obtain ⟨i1, i2, i3, i4, i5⟩ := hi
  obtain ⟨name, rows, hst, herr, hstore, hh1, hf, hr⟩ := hs
  have hplots : h.nplots ≤ 0 := by
    by_contra hc
    have : h.nplots > 0 := by omega
    simp [gnuplot_i_error, this] at herr
  have hn0 : h.ntmp = 0 := by
    rcases i1 with e | e
    · exact e
    · have := i2 e; omega
  rw [store_name_eq h name (by omega) (by omega) i4] at hstore
  have hst' := (Option.some.inj hstore).symm
  subst hst'
  subst hh1
  refine ⟨Or.inr (by simp [hn0]), fun _ => by simp; omega, by simp; omega, by simpa using i4,
    ?_⟩
  have htr : tracked h = [] := by simp [tracked, hn0]
  have htr1 : tracked
      { h with
        nplots := h.nplots + 1
        to_delete := h.to_delete.set h.ntmp.toNat name
        ntmp := h.ntmp + 1 } = [name] := by
    have hk : 0 < h.to_delete.length := by omega
    simp only [tracked, hn0]
    exact (take_set_append h.to_delete 0 name hk)
  rw [htr, List.append_nil] at i5
  simp only [htr1, hf, hr, List.map_append, List.map_cons, List.map_nil]
  exact List.Perm.append_right _ i5

/-- The invariant holds when `gnuplot_init` returns. -/
theorem inv_init (p : Platform) (host : Host) (h : gnuplot_ctrl) (env : Env)
    (hd : gnuplot_init p host empty_env = ⟨Status.done, some h, env⟩) : session_inv h env := by
  obtain ⟨⟨stream, rfl⟩, rfl⟩ := init_done_inv p host empty_env h env hd
  refine ⟨Or.inl rfl, fun hc => by simp at hc, le_refl _, by simp, ?_⟩
  simp [tracked, empty_env]

/-- Every reachable state satisfies the invariant. -/
theorem reachable_inv (h : gnuplot_ctrl) (env : Env) (hr : Reachable h env) :
    session_inv h env := by
  induction hr with
  | init p host h env hd => exact inv_init p host h env hd
  | setstyle h env h1 env1 s _ hd ih =>
    rw [setstyle_eq] at hd
    split at hd
    · simp only [Outcome.mk.injEq, true_and, Option.some.injEq] at hd
      obtain ⟨e1, e2⟩ := hd
      subst e1; subst e2
      exact inv_frame _ _ _ _ ih rfl rfl (le_refl _) rfl rfl
    · simp only [Outcome.mk.injEq, true_and, Option.some.injEq] at hd
      obtain ⟨e1, e2⟩ := hd
      subst e1; subst e2
      exact inv_frame _ _ _ _ ih rfl rfl (le_refl _) rfl rfl
  | setterm p h env h1 env1 t w ht _ hd ih =>
    unfold gnuplot_setterm at hd
    dsimp only at hd
    split at hd
    · simp at hd
    · have hfr := gnuplot_cmd_files p (some { h with term := copy_term t }) env
        ("set terminal " ++ copy_term t ++ " size " ++ fmt_d w ++ "," ++ fmt_d ht) []
      rw [hd] at hfr
      obtain ⟨f1, f2, f3⟩ := hfr
      have e := Option.some.inj f3
      subst e
      exact inv_frame _ _ _ _ ih rfl rfl (le_refl _) f1 f2
  | set_axislabel p h env h1 env1 a l _ hd ih =>
    unfold gnuplot_set_axislabel at hd
    have hfr := gnuplot_cmd_files p (some h) env ("set " ++ a ++ "label \"" ++ l ++ "\"") []
    rw [hd] at hfr
    obtain ⟨f1, f2, f3⟩ := hfr
    have e := Option.some.inj f3
    subst e
    exact inv_frame _ _ _ _ ih rfl rfl (le_refl _) f1 f2
  | resetplot h env h1 env1 _ hd ih =>
    obtain ⟨i1, i2, i3, i4, i5⟩ := ih
    rw [resetplot_eq h env (by omega) i4] at hd
    simp only [Outcome.mk.injEq, true_and, Option.some.injEq] at hd
    obtain ⟨e1, e2⟩ := hd
    subst e1; subst e2
    refine ⟨Or.inl rfl, fun hc => by simp at hc, le_refl _, i4, ?_⟩
    simpa [tracked] using i5
  | plot_coordinates p h env h1 env1 x y n t _ hd ih =>
    exact inv_plot _ _ _ _ ih (plot_coordinates_step p h env x y n t h1 env1 hd)
  | splot p h env h1 env1 x y z n t _ hd ih =>
    exact inv_plot _ _ _ _ ih (splot_step p h env x y z n t h1 env1 hd)
  | splot_grid p h env h1 env1 pts r c t _ hd ih =>
    exact inv_plot _ _ _ _ ih (splot_grid_step p h env pts r c t h1 env1 hd)
  | contour_plot p h env h1 env1 x y z nx ny t _ hd ih =>
    exact inv_plot _ _ _ _ ih (contour_plot_step p h env x y z nx ny t h1 env1 hd)
  | splot_obj Obj p h env h1 env1 obj gp n t pt _ hd ih =>
    exact inv_plot _ _ _ _ ih (splot_obj_step p h env obj gp n t pt h1 env1 hd)
  | plot_obj_xy Obj p h env h1 env1 obj gp n t pt _ hd ih =>
    exact inv_plot _ _ _ _ ih (plot_obj_xy_step p h env obj gp n t pt h1 env1 hd)
  | plot_equation p h env h1 env1 e t _ hd ih =>
    unfold gnuplot_plot_equation at hd
    obtain ⟨e1, e2, e3⟩ := cmd_then_done_inv _ _ _ _ _ _ _ hd
    have e := Option.some.inj e1
    subst e
    exact inv_frame _ _ _ _ ih rfl rfl (by simp) e2 e3
  | hardcopy p h env h1 env1 f c _ hd ih =>
    rw [hardcopy_eq] at hd
    simp only [Outcome.mk.injEq, true_and, Option.some.injEq] at hd
    obtain ⟨e1, e2⟩ := hd
    subst e1; subst e2
    exact inv_frame _ _ _ _ ih rfl rfl (le_refl _) rfl rfl

/-- The sample session with one plot is reachable: `gnuplot_init`, then
`gnuplot_plot_coordinates`. -/
theorem plotted_reachable : Reachable plotted_session plotted_env :=
  Reachable.plot_coordinates sample_platform fresh_session
    { empty_env with pipe := ["set terminal wxt size 900,400\n"] } plotted_session plotted_env
    (some (doubles [0, 1, 2])) none 3 none
    (Reachable.init sample_platform sample_host _ _ (by decide)) (by decide)

/-- When `pclose` returns -1, `gnuplot_close` leaves through its `FAIL_IF` before any call of
`remove`. -/
theorem close_pclose_fails (host : Host) (h : gnuplot_ctrl) (env : Env)
    (hc : host.pclose h.gnucmd = -1) :
    gnuplot_close host (some h) env = ⟨Status.exit GpError.ShutdownError, some h, env⟩ := by
  simp [gnuplot_close, hc]

/-- The session checks raise the temp-file error exactly when no plot is active and 63 files
are tracked. -/
theorem i_error_too_many_iff (h : gnuplot_ctrl) :
    gnuplot_i_error (some h) = some GpError.TooManyTempFiles ↔ (h.nplots ≤ 0 ∧ h.ntmp = 63) := by
  unfold gnuplot_i_error
  by_cases hp : h.nplots > 0
  · simp [hp]
  · have : h.nplots ≤ 0 := by omega
    simp [hp, this, GP_MAX_TMP_FILES]

/-- The session `gnuplot_init` leaves on the sample host is reachable. -/
theorem fresh_reachable : Reachable fresh_session started_env :=
  Reachable.init sample_platform sample_host _ _ (by decide)

/-- What `gnuplot_contour_plot` does on a session that admits the call, when `mkstemp`
succeeds, every index `nx * i + j` the loop reads lies inside the three arrays, and nothing
printed into the data command holds a `%`: five lines are written, the four fixed commands
and then the `splot` command. -/
theorem contour_sends_five (p : Platform) (h : gnuplot_ctrl) (env : Env)
    (xs ys zs : List CDouble) (nx ny : Int) (title : Option String) (name : String)
    (hnx : 1 ≤ nx) (hny : 1 ≤ ny)
    (hx : ∀ i j : Nat, i < nx.toNat → j < ny.toNat → nx.toNat * i + j < xs.length)
    (hy : ∀ i j : Nat, i < nx.toNat → j < ny.toNat → nx.toNat * i + j < ys.length)
    (hz : ∀ i j : Nat, i < nx.toNat → j < ny.toNat → nx.toNat * i + j < zs.length)
    (hp : h.nplots = 0) (h0 : 0 ≤ h.ntmp) (h63 : h.ntmp < 63)
    (hl : h.to_delete.length = 64)
    (hmk : p.mkstemp (GNUPLOT_TEMPFILE p.P_tmpdir) = some name)
    (hname : '%' ∉ name.data) (htitle : '%' ∉ (title_or_default title).data)
    (hstyle : '%' ∉ h.pstyle.data) :
    ∃ data, gnuplot_contour_plot p (some h) env (some xs) (some ys) (some zs) nx ny title =
      ⟨Status.done,
        some { h with to_delete := h.to_delete.set h.ntmp.toNat name, ntmp := h.ntmp + 1,
                      nplots := 1 },
        { env with files := env.files ++ [(name, data)],
                   pipe := env.pipe ++
                     ["unset surface\n", "set contour base\n", "set view map\n",
                      "set view 0,0\n",
                      "splot \"" ++ name ++ "\" title \"" ++ title_or_default title
                        ++ "\" with " ++ h.pstyle ++ "\n"] }⟩ := by
  obtain ⟨data, hdata⟩ := contour_rows_defined p xs ys zs nx ny (by omega) hx hy hz
  refine ⟨data, ?_⟩
  have hc : ¬ (nx < 1 ∨ ny < 1) := by omega
  have hcmd : '%' ∉ ("splot \"" ++ name ++ "\" title \""
      ++ title_or_default title ++ "\" with " ++ h.pstyle).data := by
    simp only [String.data_append, List.mem_append, not_or]
    exact ⟨⟨⟨⟨⟨by decide, hname⟩, by decide⟩, htitle⟩, by decide⟩, hstyle⟩
  simp only [gnuplot_contour_plot, hc, gnuplot_i_error_eq_none h (by omega) (by omega), hmk,
    store_name_eq h name h0 (by omega) hl, hdata, reduceCtorEq, false_or, if_false,
    gnuplot_cmd_plain p _ _ "unset surface" (by decide),
    gnuplot_cmd_plain p _ _ "set contour base" (by decide),
    gnuplot_cmd_plain p _ _ "set view map" (by decide),
    gnuplot_cmd_plain p _ _ "set view 0,0" (by decide),
    gnuplot_cmd_plain _ _ _ _ hcmd, Outcome.andThen]
  simp [hp]

/-! ## The claims -/

/-- C1 (as stated, refuted): on the fresh session the first `gnuplot_plot_coordinates` call
returns and leaves the active-plot counter at 1; the second call on the resulting session,
same valid input, does not succeed: it exits in `gnuplot_i_error` with "A gnuplot session is
already open and held by another process", and nothing more is written to the pipe. -/
theorem plot_coordinates_twice_exits :
    (gnuplot_plot_coordinates sample_platform (some fresh_session) empty_env
        (some (doubles [0, 1, 2])) none 3 (some "parabola")).status = Status.done
    ∧ (gnuplot_plot_coordinates sample_platform (some fresh_session) empty_env
        (some (doubles [0, 1, 2])) none 3 (some "parabola")).handle.map gnuplot_ctrl.nplots
        = some 1
    ∧ (gnuplot_plot_coordinates sample_platform
        (gnuplot_plot_coordinates sample_platform (some fresh_session) empty_env
          (some (doubles [0, 1, 2])) none 3 (some "parabola")).handle
        (gnuplot_plot_coordinates sample_platform (some fresh_session) empty_env
          (some (doubles [0, 1, 2])) none 3 (some "parabola")).env
        (some (doubles [0, 1, 2])) none 3 (some "parabola")).status
        = Status.exit GpError.SessionHeld
    ∧ (gnuplot_plot_coordinates sample_platform
        (gnuplot_plot_coordinates sample_platform (some fresh_session) empty_env
          (some (doubles [0, 1, 2])) none 3 (some "parabola")).handle
        (gnuplot_plot_coordinates sample_platform (some fresh_session) empty_env
          (some (doubles [0, 1, 2])) none 3 (some "parabola")).env
        (some (doubles [0, 1, 2])) none 3 (some "parabola")).env.pipe
        = ["plot \"/tmp/gnuplot-i-a1b2c3\" title \"parabola\" with points\n"] := by
  decide

/-- C1 (amended): on every session whose active-plot counter is positive (1 after one
successful call and no reset), a `gnuplot_plot_coordinates` call with valid `x` and `n >= 1`
exits in `gnuplot_i_error` with the session-held error; the handle and the outside world are
as before the call: no temporary file, no slot written, no command sent. -/
theorem plot_coordinates_on_active_session_exits (p : Platform) (h : gnuplot_ctrl) (env : Env)
    (xs : List CDouble) (y : Option (List CDouble)) (n : Int) (title : Option String)
    (hn : 1 ≤ n) (hp : 0 < h.nplots) :
    gnuplot_plot_coordinates p (some h) env (some xs) y n title
      = ⟨Status.exit GpError.SessionHeld, some h, env⟩ := by
  have hn' : ¬ n < 1 := by omega
  simp [gnuplot_plot_coordinates, hn', gnuplot_i_error, hp]

/-- C1 (amended), at a concrete session with one active plot. -/
theorem plot_coordinates_on_active_session_exits_witness :
    gnuplot_plot_coordinates sample_platform (some { fresh_session with nplots := 1, ntmp := 1 })
        empty_env (some (doubles [0, 1, 2])) none 3 (some "parabola")
      = ⟨Status.exit GpError.SessionHeld, some { fresh_session with nplots := 1, ntmp := 1 },
          empty_env⟩ :=
  plot_coordinates_on_active_session_exits sample_platform
    { fresh_session with nplots := 1, ntmp := 1 } empty_env (doubles [0, 1, 2]) none 3
    (some "parabola") (by decide) (by decide)

/-- C2 (the code departs from it): on the session `gnuplot_init` leaves, with valid input
and the title `50%%`, the call returns, the path is stored in slot 0 and both counters go up
by one, but the one command written is `plot "<tmp>" title "50%" with points`: the title is
not sent as given, because the command printed by `sprintf` is handed to `gnuplot_cmd` as a
format. -/
theorem plot_coordinates_title_percent :
    Reachable fresh_session started_env
    ∧ gnuplot_plot_coordinates sample_platform (some fresh_session) started_env
        (some (doubles [0, 1, 2])) none 3 (some "50%%") =
      ⟨Status.done,
        some { fresh_session with
          nplots := 1, ntmp := 1
          to_delete := fresh_session.to_delete.set 0 "/tmp/gnuplot-i-a1b2c3" },
        { started_env with
          files := [("/tmp/gnuplot-i-a1b2c3", ["0\n", "1\n", "2\n"])]
          pipe := ["set terminal wxt size 900,400\n",
                   "plot \"/tmp/gnuplot-i-a1b2c3\" title \"50%\" with points\n"] }⟩ :=
  ⟨fresh_reachable, by decide⟩

/-- C3 (the code departs from it): `y = [0,0,0,0,0,0,0,0,1]` with `n = 9` is not uniform,
yet the file gets nine one-column rows of `x[i]`: the test compares `y[0..6]` with `y[1..7]`
(`sizeof(y)` is the size of a pointer), whatever `n` is, and the ninth value is never
looked at. -/
theorem plot_coordinates_drops_y (g : CDouble → String) :
    (gnuplot_plot_coordinates ⟨g, "/tmp", fun _ => some "/tmp/gnuplot-i-a1b2c3"⟩
        (some fresh_session) empty_env
        (some (doubles [10, 11, 12, 13, 14, 15, 16, 17, 18]))
        (some (doubles [0, 0, 0, 0, 0, 0, 0, 0, 1])) 9 none).env.files
      = [("/tmp/gnuplot-i-a1b2c3",
          [g ⟨10⟩ ++ "\n", g ⟨11⟩ ++ "\n", g ⟨12⟩ ++ "\n", g ⟨13⟩ ++ "\n", g ⟨14⟩ ++ "\n",
           g ⟨15⟩ ++ "\n", g ⟨16⟩ ++ "\n", g ⟨17⟩ ++ "\n", g ⟨18⟩ ++ "\n"])] := by
  rfl

/-- C4 (the code departs from it): with `n = 2`, `y` points to `5, 5` followed by six more
doubles of the same array.  When those are `6`, the rows have two columns although
`y[0] = y[1]`; when they are `5`, the rows have one column: the decision reads `y[2..7]`,
indices that are not below `n`. -/
theorem plot_coordinates_reads_past_n (g : CDouble → String) :
    (gnuplot_plot_coordinates ⟨g, "/tmp", fun _ => some "/tmp/gnuplot-i-a1b2c3"⟩
        (some fresh_session) empty_env
        (some (doubles [10, 11])) (some (doubles [5, 5, 6, 6, 6, 6, 6, 6])) 2 none).env.files
      = [("/tmp/gnuplot-i-a1b2c3", [g ⟨10⟩ ++ " " ++ g ⟨5⟩ ++ "\n", g ⟨11⟩ ++ " " ++ g ⟨5⟩ ++ "\n"])]
    ∧ (gnuplot_plot_coordinates ⟨g, "/tmp", fun _ => some "/tmp/gnuplot-i-a1b2c3"⟩
        (some fresh_session) empty_env
        (some (doubles [10, 11])) (some (doubles [5, 5, 5, 5, 5, 5, 5, 5])) 2 none).env.files
      = [("/tmp/gnuplot-i-a1b2c3", [g ⟨10⟩ ++ "\n", g ⟨11⟩ ++ "\n"])] := by
  exact ⟨rfl, rfl⟩

/-- C5 (the code departs from it): the data loop reads index `nx * i + j`.  For `nx = 2`,
`ny = 3` and arrays of six elements it emits elements 0, 1, 2, then 2, 3, 4: element 2
twice and element 5 never.  For `nx = 3`, `ny = 2` it reads index 6 of arrays of six
elements, which is undefined. -/
theorem contour_plot_wrong_stride (g : CDouble → String) :
    (gnuplot_contour_plot ⟨g, "/tmp", fun _ => some "/tmp/gnuplot-i-a1b2c3"⟩
        (some fresh_session) empty_env
        (some (doubles [0, 1, 2, 3, 4, 5])) (some (doubles [10, 11, 12, 13, 14, 15]))
        (some (doubles [20, 21, 22, 23, 24, 25])) 2 3 none).env.files
      = [("/tmp/gnuplot-i-a1b2c3",
          [g ⟨0⟩ ++ " " ++ g ⟨10⟩ ++ " " ++ g ⟨20⟩ ++ "\n",
           g ⟨1⟩ ++ " " ++ g ⟨11⟩ ++ " " ++ g ⟨21⟩ ++ "\n",
           g ⟨2⟩ ++ " " ++ g ⟨12⟩ ++ " " ++ g ⟨22⟩ ++ "\n", "\n",
           g ⟨2⟩ ++ " " ++ g ⟨12⟩ ++ " " ++ g ⟨22⟩ ++ "\n",
           g ⟨3⟩ ++ " " ++ g ⟨13⟩ ++ " " ++ g ⟨23⟩ ++ "\n",
           g ⟨4⟩ ++ " " ++ g ⟨14⟩ ++ " " ++ g ⟨24⟩ ++ "\n", "\n"])]
    ∧ (gnuplot_contour_plot ⟨g, "/tmp", fun _ => some "/tmp/gnuplot-i-a1b2c3"⟩
        (some fresh_session) empty_env
        (some (doubles [0, 1, 2, 3, 4, 5])) (some (doubles [10, 11, 12, 13, 14, 15]))
        (some (doubles [20, 21, 22, 23, 24, 25])) 3 2 none).status = Status.undefined
    ∧ read (some (doubles [0, 1, 2, 3, 4, 5])) (3 * 2 + 0) = none := by
  exact ⟨rfl, rfl, rfl⟩

/-- C6: for `rows >= 1`, `cols >= 1` and a matrix of `rows * cols` values, on a session that
admits the call and with `mkstemp` giving `name`, the file `gnuplot_splot_grid` creates
holds, for `i = 0 .. rows-1` in order, the `cols` rows `i j points[i*cols+j]` for
`j = 0 .. cols-1` in order, each group followed by one chunk that is a single newline. -/
theorem splot_grid_writes (p : Platform) (h : gnuplot_ctrl) (env : Env) (pts : List CDouble)
    (rows cols : Int) (title : Option String) (name : String)
    (hr : 1 ≤ rows) (hc : 1 ≤ cols) (hlen : (pts.length : Int) = rows * cols)
    (hp : h.nplots ≤ 0) (h0 : 0 ≤ h.ntmp) (h63 : h.ntmp < 63)
    (hl : h.to_delete.length = 64)
    (hmk : p.mkstemp (GNUPLOT_TEMPFILE p.P_tmpdir) = some name) :
    (gnuplot_splot_grid p (some h) env (some pts) rows cols title).env.files =
      env.files ++ [(name,
        (List.range rows.toNat).flatMap (fun (i : Nat) =>
          (List.range cols.toNat).map (fun (j : Nat) =>
            fmt_d (i : Int) ++ " " ++ fmt_d (j : Int) ++ " "
              ++ p.g (pts.getD (i * cols.toNat + j) ⟨0⟩) ++ "\n")
          ++ ["\n"]))] := by
  have hr' : ¬ rows < 1 := by omega
  have hc' : ¬ cols < 1 := by omega
  have hlen' : pts.length = rows.toNat * cols.toNat := by
    have h1 : (rows.toNat : Int) = rows := Int.toNat_of_nonneg (by omega)
    have h2 : (cols.toNat : Int) = cols := Int.toNat_of_nonneg (by omega)
    have : (pts.length : Int) = ((rows.toNat * cols.toNat : Nat) : Int) := by
      push_cast; rw [h1, h2]; exact hlen
    exact_mod_cast this
  have hrows := splot_grid_rows p pts rows cols (by omega) hlen'
  unfold grid_data at hrows
  simp only [gnuplot_splot_grid, hr', hc', gnuplot_i_error_eq_none h hp (by omega), hmk,
    store_name_eq h name h0 (by omega) hl, hrows]
  simp [(cmd_then_done_env _ _ _ _ _ _).1]

/-- C6 on a matrix of 2 by 3. -/
theorem splot_grid_writes_witness :
    (gnuplot_splot_grid sample_platform (some fresh_session) empty_env
        (some (doubles [50, 51, 52, 53, 54, 55])) 2 3 none).env.files =
      [("/tmp/gnuplot-i-a1b2c3",
        ["0 0 50\n", "0 1 51\n", "0 2 52\n", "\n", "1 0 53\n", "1 1 54\n", "1 2 55\n", "\n"])] :=
  (splot_grid_writes sample_platform fresh_session empty_env (doubles [50, 51, 52, 53, 54, 55])
    2 3 none "/tmp/gnuplot-i-a1b2c3" (by decide) (by decide) (by decide) (by decide)
    (by decide) (by decide) (by decide) rfl).trans (by decide)

/-- C8 (the code departs from it): `gnuplot_splot` and `gnuplot_contour_plot` do not test
`z`.  With `z` null and the other arguments valid the call is not rejected: the temporary
file is created and slot 0 written before `z[0]` is read through the null pointer. -/
theorem null_z_passes_argument_check :
    gnuplot_splot sample_platform (some fresh_session) empty_env
        (some (doubles [1])) (some (doubles [2])) none 1 none
      = ⟨Status.undefined,
          some { fresh_session with
            to_delete := fresh_session.to_delete.set 0 "/tmp/gnuplot-i-a1b2c3", ntmp := 1 },
          { empty_env with files := [("/tmp/gnuplot-i-a1b2c3", [])] }⟩
    ∧ gnuplot_contour_plot sample_platform (some fresh_session) empty_env
        (some (doubles [1])) (some (doubles [2])) none 1 1 none
      = ⟨Status.undefined,
          some { fresh_session with
            to_delete := fresh_session.to_delete.set 0 "/tmp/gnuplot-i-a1b2c3", ntmp := 1 },
          { empty_env with files := [("/tmp/gnuplot-i-a1b2c3", [])] }⟩ := by
  decide

/-- C9: for a session that tracks at most 64 files, `gnuplot_resetplot` returns with both
counters at zero, has called `remove` once on each tracked slot `to_delete[0 .. ntmp-1]`, in
order, and on nothing else, and leaves the pipe handle, the style, the terminal name, the
pipe and the files as they were.  On the session it leaves, `gnuplot_i_error` raises
nothing; a `gnuplot_plot_coordinates` call with `x` non-null and `n >= 1` ends in no
session-check exit, and a command it writes starts with `plot "`; when `mkstemp` succeeds, the
data loop is defined and no `%` occurs in path, title and style, it writes exactly the
`plot` command. -/
theorem resetplot_then_plot (h : gnuplot_ctrl) (env : Env) (hn : h.ntmp ≤ 64)
    (hl : h.to_delete.length = 64) :
    gnuplot_resetplot (some h) env =
      ⟨Status.done, some { h with ntmp := 0, nplots := 0 },
        { env with removed := env.removed ++ h.to_delete.take h.ntmp.toNat }⟩
    ∧ gnuplot_i_error (some { h with ntmp := 0, nplots := 0 }) = none
    ∧ (∀ (p : Platform) (env1 : Env) (xs : List CDouble) (y : Option (List CDouble)) (n : Int)
        (title : Option String), 1 ≤ n →
        ((gnuplot_plot_coordinates p (some { h with ntmp := 0, nplots := 0 }) env1 (some xs) y n
              title).status = Status.done
          ∨ (gnuplot_plot_coordinates p (some { h with ntmp := 0, nplots := 0 }) env1 (some xs) y
              n title).status = Status.exit GpError.TempFileError
          ∨ (gnuplot_plot_coordinates p (some { h with ntmp := 0, nplots := 0 }) env1 (some xs) y
              n title).status = Status.undefined)
        ∧ ((gnuplot_plot_coordinates p (some { h with ntmp := 0, nplots := 0 }) env1 (some xs) y
              n title).env.pipe = env1.pipe
          ∨ ∃ rest, (gnuplot_plot_coordinates p (some { h with ntmp := 0, nplots := 0 }) env1
              (some xs) y n title).env.pipe = env1.pipe ++ ["plot \"" ++ rest]))
    ∧ (∀ (p : Platform) (env1 : Env) (xs : List CDouble) (y : Option (List CDouble)) (n : Int)
        (title : Option String) (name : String) (rows : List String), 1 ≤ n →
        p.mkstemp (GNUPLOT_TEMPFILE p.P_tmpdir) = some name →
        for_rows n (coordinates_row p (some xs) y) = some rows →
        '%' ∉ name.data → '%' ∉ (title_or_default title).data → '%' ∉ h.pstyle.data →
        gnuplot_plot_coordinates p (some { h with ntmp := 0, nplots := 0 }) env1 (some xs) y n
            title =
          ⟨Status.done,
            some { h with to_delete := h.to_delete.set 0 name, ntmp := 1, nplots := 1 },
            { env1 with files := env1.files ++ [(name, rows)],
                        pipe := env1.pipe ++ ["plot \"" ++ name ++ "\" title \""
                          ++ title_or_default title ++ "\" with " ++ h.pstyle ++ "\n"] }⟩) := by
  refine ⟨resetplot_eq h env hn hl, gnuplot_i_error_eq_none _ (le_refl _) (by simp), ?_, ?_⟩
  · intro p env1 xs y n title h1
    exact plot_coordinates_verb p _ env1 xs y n title h1 (le_refl _) (by simp)
  · intro p env1 xs y n title name rows h1 hmk hrows hname htitle hstyle
    exact plot_coordinates_done p { h with ntmp := 0, nplots := 0 } env1 xs y n title name rows
      h1 (le_refl _) (le_refl _) (by simp) hl hmk hrows hname htitle hstyle

/-- C9 on a session with five active plots and two tracked files: both paths are handed to
`remove`, once each, and the counters are zero. -/
theorem resetplot_then_plot_witness :
    gnuplot_resetplot
        (some { fresh_session with
          nplots := 5, ntmp := 2, pstyle := "lines"
          to_delete := "/tmp/gnuplot-i-000001" :: "/tmp/gnuplot-i-000002" :: List.replicate 62 "" })
        empty_env =
      ⟨Status.done,
        some { fresh_session with
          nplots := 0, ntmp := 0, pstyle := "lines"
          to_delete := "/tmp/gnuplot-i-000001" :: "/tmp/gnuplot-i-000002" :: List.replicate 62 "" },
        { empty_env with removed := ["/tmp/gnuplot-i-000001", "/tmp/gnuplot-i-000002"] }⟩ :=
  (resetplot_then_plot
    { fresh_session with
      nplots := 5, ntmp := 2, pstyle := "lines"
      to_delete := "/tmp/gnuplot-i-000001" :: "/tmp/gnuplot-i-000002" :: List.replicate 62 "" }
    empty_env (by decide) (by decide)).1

/-- C10 (the code departs from it): the composed command is handed to `gnuplot_cmd` as a
printf format.  The expression `1%%2` reaches the pipe as `1%2`, one character short; for
`int(x)%3` the format has a conversion without argument and the behaviour is undefined. -/
theorem plot_equation_percent (p : Platform) :
    (gnuplot_plot_equation p (some fresh_session) empty_env "1%%2" none).env.pipe
      = ["plot 1%2 title \"No title\" with points\n"]
    ∧ (gnuplot_plot_equation p (some fresh_session) empty_env "int(x)%3" none)
      = ⟨Status.undefined, some fresh_session, empty_env⟩ := by
  exact ⟨rfl, rfl⟩

/-- C11: for every style name that is none of the ten names `gnuplot_setstyle` compares
with, the call returns, the style of the session is `points`, the warning is printed on
`stderr`, and nothing else changes: the other fields of the handle, the pipe, the files. -/
theorem setstyle_unknown (h : gnuplot_ctrl) (env : Env) (plot_style : String)
    (hs : plot_style ∉ recognised_styles) :
    gnuplot_setstyle (some h) env plot_style =
      ⟨Status.done, some { h with pstyle := "points" },
        { env with stderr := env.stderr ++
            ["Warning: unknown requested plot style: using default 'points'\n"] }⟩ := by
  rw [setstyle_eq, if_neg hs]

/-- C11 on the name `nonsense`, for a session whose style was `lines`. -/
theorem setstyle_unknown_witness :
    gnuplot_setstyle (some { fresh_session with pstyle := "lines" }) empty_env "nonsense" =
      ⟨Status.done, some fresh_session,
        { empty_env with stderr :=
            ["Warning: unknown requested plot style: using default 'points'\n"] }⟩ :=
  setstyle_unknown { fresh_session with pstyle := "lines" } empty_env "nonsense" (by decide)

/-- C12: `gnuplot_setterm` ends in the exit for the dimensions exactly when `width < 0` or
`height < 0`; in that case the outside world is as before the call, so no command was
written to the pipe (the terminal name has been copied into the handle by then). -/
theorem setterm_dimensions (p : Platform) (h : gnuplot_ctrl) (env : Env) (terminal : String)
    (width height : Int) :
    ((gnuplot_setterm p (some h) env terminal width height).status
        = Status.exit GpError.InvalidDimensions ↔ (width < 0 ∨ height < 0))
    ∧ ((width < 0 ∨ height < 0) →
        gnuplot_setterm p (some h) env terminal width height =
          ⟨Status.exit GpError.InvalidDimensions, some { h with term := copy_term terminal },
            env⟩) := by
  unfold gnuplot_setterm
  by_cases hd : width < 0 ∨ height < 0
  · simp [hd]
  · simp only [hd, if_false, iff_false, false_imp_iff, and_true]
    exact gnuplot_cmd_status _ _ _ _ _ _

/-- C12 on `width = -1`. -/
theorem setterm_dimensions_witness :
    gnuplot_setterm sample_platform (some fresh_session) empty_env "x11" (-1) 400 =
      ⟨Status.exit GpError.InvalidDimensions, some { fresh_session with term := "x11" },
        empty_env⟩ :=
  (setterm_dimensions sample_platform fresh_session empty_env "x11" (-1) 400).2
    (Or.inl (by decide))

/-- C13: on a session that admits the call, with `n >= 1` and `mkstemp` giving `name`, for
every callback: run with the recording callback, `gnuplot_plot_obj_xy` and
`gnuplot_splot_obj` leave the record `(0, n), (1, n), ..., (n-1, n)`, so the callback is
called exactly `n` times, call `k` with index `k` and count `n`, in increasing order; and the
file holds `n` rows, row `k` printed from the point as call `k` leaves it (`x y` for the
2-D operation, `x y z` for the 3-D one). -/
theorem callbacks_called_in_order {Obj : Type} (p : Platform) (h : gnuplot_ctrl) (env : Env)
    (obj : Obj) (getPoint : GetPoint Obj) (n : Int) (title : Option String)
    (point0 : gnuplot_point) (name : String)
    (hn : 1 ≤ n) (hp : h.nplots ≤ 0) (h0 : 0 ≤ h.ntmp) (h63 : h.ntmp < 63)
    (hl : h.to_delete.length = 64)
    (hmk : p.mkstemp (GNUPLOT_TEMPFILE p.P_tmpdir) = some name) :
    (gnuplot_plot_obj_xy p (some h) env (obj, ([] : List (Int × Int)))
        (some (logged getPoint)) n title point0).2.2
      = (List.range n.toNat).map (fun (k : Nat) => ((k : Int), n))
    ∧ (gnuplot_plot_obj_xy p (some h) env obj (some getPoint) n title point0).1.env.files
      = env.files ++ [(name, (List.range n.toNat).map (fun k =>
          p.g (callback_states getPoint n obj point0 (k + 1)).2.x ++ " "
            ++ p.g (callback_states getPoint n obj point0 (k + 1)).2.y ++ "\n"))]
    ∧ (gnuplot_splot_obj p (some h) env (obj, ([] : List (Int × Int)))
        (some (logged getPoint)) n title point0).2.2
      = (List.range n.toNat).map (fun (k : Nat) => ((k : Int), n))
    ∧ (gnuplot_splot_obj p (some h) env obj (some getPoint) n title point0).1.env.files
      = env.files ++ [(name, (List.range n.toNat).map (fun k =>
          p.g (callback_states getPoint n obj point0 (k + 1)).2.x ++ " "
            ++ p.g (callback_states getPoint n obj point0 (k + 1)).2.y ++ " "
            ++ p.g (callback_states getPoint n obj point0 (k + 1)).2.z ++ "\n"))] := by
  have hn' : ¬ n < 1 := by omega
  have herr := gnuplot_i_error_eq_none h hp (by omega)
  have hst := store_name_eq h name h0 (by omega) hl
  refine ⟨?_, ?_, ?_, ?_⟩
  · simp only [gnuplot_plot_obj_xy, hn', herr, hmk, hst, if_false, callback_loop_rows,
      logged_states]
    simp
  · simp only [gnuplot_plot_obj_xy, hn', herr, hmk, hst, if_false, callback_loop_rows]
    simp [(cmd_then_done_env _ _ _ _ _ _).1]
  · simp only [gnuplot_splot_obj, hn', herr, hmk, hst, if_false, callback_loop_rows,
      logged_states]
    simp
  · simp only [gnuplot_splot_obj, hn', herr, hmk, hst, if_false, callback_loop_rows]
    simp [(cmd_then_done_env _ _ _ _ _ _).1]

/-- C13 on three points: the record of the calls and the rows of both operations. -/
theorem callbacks_called_in_order_witness :
    (gnuplot_plot_obj_xy sample_platform (some fresh_session) empty_env
        ((0 : Nat), ([] : List (Int × Int))) (some (logged sample_callback)) 3 none
        ⟨⟨7⟩, ⟨7⟩, ⟨7⟩⟩).2.2 = [(0, 3), (1, 3), (2, 3)]
    ∧ (gnuplot_plot_obj_xy sample_platform (some fresh_session) empty_env (0 : Nat)
        (some sample_callback) 3 none ⟨⟨7⟩, ⟨7⟩, ⟨7⟩⟩).1.env.files
      = [("/tmp/gnuplot-i-a1b2c3", ["0 0\n", "1 1\n", "2 4\n"])]
    ∧ (gnuplot_splot_obj sample_platform (some fresh_session) empty_env
        ((0 : Nat), ([] : List (Int × Int))) (some (logged sample_callback)) 3 none
        ⟨⟨7⟩, ⟨7⟩, ⟨7⟩⟩).2.2 = [(0, 3), (1, 3), (2, 3)]
    ∧ (gnuplot_splot_obj sample_platform (some fresh_session) empty_env (0 : Nat)
        (some sample_callback) 3 none ⟨⟨7⟩, ⟨7⟩, ⟨7⟩⟩).1.env.files
      = [("/tmp/gnuplot-i-a1b2c3", ["0 0 7\n", "1 1 7\n", "2 4 7\n"])] := by
  have hw := callbacks_called_in_order sample_platform fresh_session empty_env (0 : Nat)
    sample_callback 3 none ⟨⟨7⟩, ⟨7⟩, ⟨7⟩⟩ "/tmp/gnuplot-i-a1b2c3" (by decide) (by decide)
    (by decide) (by decide) (by decide) rfl
  exact ⟨hw.1.trans (by decide), hw.2.1.trans (by decide), hw.2.2.1.trans (by decide),
    hw.2.2.2.trans (by decide)⟩

/-- C15: for every session and file name, `gnuplot_hardcopy` returns after writing exactly
four lines to the pipe, in this order: `set terminal postscript` (with `enhanced color` when
the colour argument is not null), `set output "<f>"`, `replot`, `set terminal <T>` with the
recorded terminal name; the handle is unchanged (terminal name, style, counters, slots), and
so are files and removals.  Nothing depends on the active-plot counter: no check is made. -/
theorem hardcopy_sends (p : Platform) (h : gnuplot_ctrl) (env : Env) (filename : String)
    (color : Option String) :
    gnuplot_hardcopy p (some h) env filename color =
      ⟨Status.done, some h,
        { env with pipe := env.pipe ++
            [(match color with
              | none => "set terminal postscript"
              | some _ => "set terminal postscript enhanced color") ++ "\n",
             "set output \"" ++ filename ++ "\"" ++ "\n",
             "replot" ++ "\n",
             "set terminal " ++ h.term ++ "\n"] }⟩ :=
  hardcopy_eq p h env filename color

/-- C16 (the code departs from it): `gnuplot_get_program_path` never returns `NULL`.  When
no location matches, as for the documented example `/bin/ls` or for a program that does not
exist, it leaves through `FAIL_IF` ("Command not found in PATH variable"); `ls` is found in
`/bin`. -/
theorem program_path_exits_not_null :
    (∀ (host : Host) (pname : String),
        gnuplot_get_program_path host pname ≠ PathResult.returned none)
    ∧ gnuplot_get_program_path sample_host "/bin/ls"
        = PathResult.exit GpError.ExecutableNotFound
    ∧ gnuplot_get_program_path sample_host "nosuchprogram"
        = PathResult.exit GpError.ExecutableNotFound
    ∧ gnuplot_get_program_path sample_host "ls" = PathResult.returned (some "/bin") := by
  refine ⟨?_, by decide, by decide, by decide⟩
  intro host pname
  unfold gnuplot_get_program_path
  split
  · simp
  · split
    · simp
    · split <;> simp

/-- C17 (the code departs from it): on the session `gnuplot_init` leaves, with valid input
and the title `50%%`, the five commands are written in the order claimed, but the data
command carries the title `50%`, because the command printed by `sprintf` is handed to
`gnuplot_cmd` as a format.  With `nx = 3`, `ny = 2` and arrays of six elements the data loop
reads index 6, and no command at all is written. -/
theorem contour_plot_title_percent :
    Reachable fresh_session started_env
    ∧ (gnuplot_contour_plot sample_platform (some fresh_session) started_env
        (some (doubles [1])) (some (doubles [2])) (some (doubles [3])) 1 1
        (some "50%%")).status = Status.done
    ∧ (gnuplot_contour_plot sample_platform (some fresh_session) started_env
        (some (doubles [1])) (some (doubles [2])) (some (doubles [3])) 1 1
        (some "50%%")).env.pipe
      = ["set terminal wxt size 900,400\n",
         "unset surface\n", "set contour base\n", "set view map\n", "set view 0,0\n",
         "splot \"/tmp/gnuplot-i-a1b2c3\" title \"50%\" with points\n"]
    ∧ (gnuplot_contour_plot sample_platform (some fresh_session) started_env
        (some (doubles [0, 1, 2, 3, 4, 5])) (some (doubles [10, 11, 12, 13, 14, 15]))
        (some (doubles [20, 21, 22, 23, 24, 25])) 3 2 (some "Points")).status
      = Status.undefined
    ∧ (gnuplot_contour_plot sample_platform (some fresh_session) started_env
        (some (doubles [0, 1, 2, 3, 4, 5])) (some (doubles [10, 11, 12, 13, 14, 15]))
        (some (doubles [20, 21, 22, 23, 24, 25])) 3 2 (some "Points")).env.pipe
      = started_env.pipe :=
  ⟨fresh_reachable, by decide, by decide, by decide, by decide⟩

/-- C19 (the code departs from it): for the terminal name `a%%b` the stored name is `a%%b`
and the command sent is `set terminal a%b size 900,400`, not the stored name: the command
printed by `sprintf` is handed to `gnuplot_cmd` as a format.  For a name with a lone `%`
the behaviour is undefined and nothing is sent. -/
theorem setterm_percent (p : Platform) :
    gnuplot_setterm p (some fresh_session) empty_env "a%%b" 900 400 =
      ⟨Status.done, some { fresh_session with term := "a%%b" },
        { empty_env with pipe := ["set terminal a%b size 900,400\n"] }⟩
    ∧ gnuplot_setterm p (some fresh_session) empty_env "png size 50%,50%" 900 400 =
      ⟨Status.undefined, some { fresh_session with term := "png size 50%,50%" }, empty_env⟩ := by
  exact ⟨rfl, rfl⟩

/-- C20: in every state reached from `gnuplot_init` by operations that return, `ntmp` is 0
or 1, and `ntmp = 1` implies `nplots >= 1`; so `ntmp` is an index of the 64-slot array, and
when the session checks pass, the name is written to slot 0. -/
theorem reachable_counters (h : gnuplot_ctrl) (env : Env) (hr : Reachable h env) :
    (h.ntmp = 0 ∨ h.ntmp = 1) ∧ (h.ntmp = 1 → 1 ≤ h.nplots)
    ∧ (0 ≤ h.ntmp ∧ h.ntmp < GP_MAX_TMP_FILES)
    ∧ (∀ name : String, gnuplot_i_error (some h) = none →
        store_name h name = some { h with to_delete := h.to_delete.set 0 name, ntmp := 1 }) := by
  obtain ⟨i1, i2, i3, i4, _⟩ := reachable_inv h env hr
  refine ⟨i1, i2, ⟨by omega, by unfold GP_MAX_TMP_FILES; omega⟩, ?_⟩
  intro name herr
  have hplots : h.nplots ≤ 0 := by
    by_contra hc
    have : h.nplots > 0 := by omega
    simp [gnuplot_i_error, this] at herr
  have hn0 : h.ntmp = 0 := by
    rcases i1 with e | e
    · exact e
    · have := i2 e; omega
  rw [store_name_eq h name (by omega) (by omega) i4]
  simp [hn0]

/-- C20 on the sample session with one plot: it is reachable, one file is tracked and one
plot is active. -/
theorem reachable_counters_witness :
    Reachable plotted_session plotted_env
    ∧ plotted_session.ntmp = 1 ∧ 1 ≤ plotted_session.nplots
    ∧ (0 ≤ plotted_session.ntmp ∧ plotted_session.ntmp < GP_MAX_TMP_FILES) :=
  ⟨plotted_reachable, by decide,
    (reachable_counters plotted_session plotted_env plotted_reachable).2.1 (by decide),
    (reachable_counters plotted_session plotted_env plotted_reachable).2.2.1⟩

end Gnuplot
